import Mathlib

set_option linter.unusedVariables false

/-!
Shallow embedding of the LinkedIn Apify scraper actor (`src/main.py`,
class `LinkedInScraperActor`).  External effects (the Apify proxy
provider, Chrome/webdriver, the LinkedIn login, the per-entity DOM
extraction, the job search) are modelled by an environment of oracle
functions; the mutable fields of the actor object are threaded as
explicit state; every externally visible effect (`Actor.set_value`,
`Actor.push_data`, driver creation/teardown, provider `new_url` calls,
the per-task "Processing ..." log line) is recorded in an event trace.
-/

namespace LinkedInApifyScraper

/-- Python truthiness of an optional string: `None` and `""` are falsy. -/
def truthy : Option String → Bool
  | none => false
  | some s => !(s == "")

/-- The `proxyRotation` strategies (`main.py` lines 75-115, 453). -/
inductive Rotation
  | PER_REQUEST
  | UNTIL_FAILURE
  | RECOMMENDED
deriving DecidableEq, Repr

/-- One result dict as appended to `results` / pushed via `Actor.push_data`.
`rtype` is the `"type"` field; `payload` stands for the scraped entity
fields (name, about, experiences, ...), which are opaque to the
orchestration core; `error` is set on the error dicts built in the
`except` branches; `search_term` is the `"search_term"` field of the
`search_jobs` error dict. -/
structure ResultRecord where
  rtype : String
  url : Option String := none
  search_term : Option String := none
  error : Option String := none
  payload : Option String := none
  scraped_at : Option String := none
deriving DecidableEq, Repr

/-- The `progress` dict persisted under the `"PROGRESS"` key
(`main.py` lines 491-499, 604). -/
structure Progress where
  total : Nat
  completed : Nat
  failed : Nat
  scrape_type : String
  proxy_rotation : Rotation
  session_pool : Option String
  status : Option String := none
deriving DecidableEq, Repr

/-- Externally visible effects of a run, in order of occurrence. -/
inductive Event
  | new_url (session_id : Option String)   -- `proxy_config.new_url(...)` call
  | driver_create                          -- `webdriver.Chrome(...)` succeeded
  | driver_fail                            -- `webdriver.Chrome(...)` raised
  | driver_quit                            -- `driver.quit()` on a live driver
  | login (ok : Bool)                      -- `login_to_linkedin(...)` returned `ok`
  | push (r : ResultRecord)                -- `Actor.push_data(result)`
  | set_error (msg : String)               -- `Actor.set_value("ERROR", ...)`
  | set_progress (p : Progress)            -- `Actor.set_value("PROGRESS", ...)`
  | set_session (key : String)             -- `Actor.set_value("SESSION_...", ...)`
  | log_task (i : Nat)                     -- the per-task "Processing {i+1}/..." log line
deriving DecidableEq, Repr

/-- Value of `self.proxy_config` when it is not `None`: either the Apify
proxy configuration object (which has `new_url`) or the custom dict
`{"type": "custom", "urls": [...]}` (`main.py` lines 36-64). -/
inductive ProxyConfig
  | apify
  | custom (urls : List String)
deriving DecidableEq, Repr

/-- Oracles for the proxy provider: `new_url n sid` is the URL returned by
the n-th `proxy_config.new_url(...)` call when passed session id `sid`;
`choice n` is the index drawn by the n-th `random.choice(urls)` call
(taken modulo the list length). -/
structure ProxyEnv where
  new_url : Nat → Option String → String
  choice : Nat → Nat

/-- The mutable proxy-related fields of the actor object
(`__init__`, `main.py` lines 26-34), plus oracle call counters. -/
structure ProxyState where
  request_count : Nat := 0
  current_proxy_url : Option String := none
  proxy_failure_count : Nat := 0
  new_url_calls : Nat := 0
  choice_calls : Nat := 0
deriving DecidableEq, Repr

/-- One `await self.proxy_config.new_url(session_id)` call. -/
def callNewUrl (env : ProxyEnv) (s : ProxyState) (sid : Option String) :
    String × ProxyState × List Event :=
  (env.new_url s.new_url_calls sid,
   { s with new_url_calls := s.new_url_calls + 1 },
   [Event.new_url sid])

/-- One `random.choice(urls)` call (`urls` nonempty at every call site). -/
def randomChoice (env : ProxyEnv) (s : ProxyState) (urls : List String) :
    String × ProxyState :=
  (urls.getD (env.choice s.choice_calls % urls.length) "",
   { s with choice_calls := s.choice_calls + 1 })

/-- Model of `LinkedInScraperActor.get_proxy_url` (`main.py` lines 66-120).
Returns the proxy URL (`None` when no proxy is configured), the updated
actor state and the provider calls made.  The `try/except` wrapper of the
source only matters if the provider itself raises, which the oracle model
treats as total. -/
def get_proxy_url (env : ProxyEnv) (proxy_config : Option ProxyConfig)
    (proxy_rotation : Rotation) (session_pool_name : Option String)
    (max_proxy_failures : Nat) (s : ProxyState) :
    Option String × ProxyState × List Event :=
  match proxy_config with
  | none => (none, s, [])
  | some ProxyConfig.apify =>
    match proxy_rotation with
    | Rotation.PER_REQUEST =>
      if truthy session_pool_name then
        let sid := session_pool_name.getD "" ++ "_" ++ toString s.request_count
        let (u, s, ev) := callNewUrl env s (some sid)
        (some u, s, ev)
      else
        let (u, s, ev) := callNewUrl env s none
        (some u, s, ev)
    | Rotation.UNTIL_FAILURE =>
      if ¬ truthy s.current_proxy_url ∨ s.proxy_failure_count ≥ max_proxy_failures then
        let s := { s with proxy_failure_count := 0 }
        let (u, s, ev) :=
          if truthy session_pool_name then
            callNewUrl env s (some (session_pool_name.getD "" ++ "_persistent"))
          else
            callNewUrl env s none
        let s := { s with current_proxy_url := some u }
        (some u, s, ev)
      else
        (s.current_proxy_url, s, [])
    | Rotation.RECOMMENDED =>
      if truthy session_pool_name then
        let sid := session_pool_name.getD "" ++ "_" ++ toString (s.request_count % 10)
        let (u, s, ev) := callNewUrl env s (some sid)
        (some u, s, ev)
      else
        let (u, s, ev) := callNewUrl env s none
        (some u, s, ev)
  | some (ProxyConfig.custom urls) =>
    if urls ≠ [] then
      match proxy_rotation with
      | Rotation.PER_REQUEST =>
        let (u, s) := randomChoice env s urls
        (some u, s, [])
      | Rotation.UNTIL_FAILURE =>
        if ¬ truthy s.current_proxy_url then
          let (u, s) := randomChoice env s urls
          (some u, { s with current_proxy_url := some u }, [])
        else
          (s.current_proxy_url, s, [])
      | Rotation.RECOMMENDED =>
        (urls.get? (s.request_count % urls.length), s, [])
    else
      (none, s, [])

/-- Recursive core of `retry_on_failure`: `remaining` is the number of loop
iterations left (`range(self.max_retries)`), `attempt` the current loop
index.  `f` is the wrapped stateful operation (a raised exception is an
`Except.error`); the returned `Nat` is the total number of seconds slept
in `time.sleep(wait_time)` calls.  The `remaining = 0` test in the
successor case is exactly the source's `attempt == self.max_retries - 1`
re-raise condition. -/
def retry_go {σ E α : Type} (retry_delay : Nat) (f : σ → Except E α × σ) :
    Nat → Nat → σ → Option (Except E α) × σ × Nat
  | _, 0, s => (none, s, 0)
  | attempt, remaining + 1, s =>
    match f s with
    | (Except.ok a, s') => (some (Except.ok a), s', 0)
    | (Except.error e, s') =>
      if remaining = 0 then
        (some (Except.error e), s', 0)
      else
        let (r, s'', w) := retry_go retry_delay f (attempt + 1) remaining s'
        (r, s'', retry_delay * 2 ^ attempt + w)

/-- Model of `LinkedInScraperActor.retry_on_failure` (`main.py` lines
226-238), with `max_retries` attempts and exponential backoff base
`retry_delay` (the instance uses 3 and 5).  Returns `none` only when
`max_retries = 0`, in which case the Python loop body never runs and the
method falls through returning `None`. -/
def retry_on_failure {σ E α : Type} (max_retries retry_delay : Nat)
    (f : σ → Except E α × σ) (s : σ) : Option (Except E α) × σ × Nat :=
  retry_go retry_delay f 0 max_retries s

/-- Oracles for the remaining external collaborators of `run`:
`chrome_ok n` is whether the n-th `webdriver.Chrome(options=...)` call
succeeds; `login_ok n` is whether the n-th `actions.login(...)` call
succeeds (`login_to_linkedin` catches the exception and returns a bool);
`extract n` is the outcome of the n-th per-entity extraction (the
`Person(...)` / `Company(...)` / `Job(...)` construction plus field
access): a payload, or the message of the raised exception;
`search_listings` / `recommended_jobs` are the linkedin urls produced by
`job_search.search(term)` / `job_search.recommended_jobs`; `search_ok`
is whether the whole `search_jobs` body runs without raising. -/
structure Env where
  proxy : ProxyEnv
  chrome_ok : Nat → Bool
  login_ok : Nat → Bool
  extract : Nat → Except String String
  search_listings : List String
  recommended_jobs : List String
  search_ok : Bool

/-- The mutable state of the actor object during `run`: the proxy fields,
whether `self.driver` is assigned (`has_driver`) and whether the browser
it points at is still running (`driver_live`, cleared by `quit()`), and
the oracle call counters. -/
structure RunState where
  proxy : ProxyState
  has_driver : Bool := false
  driver_live : Bool := false
  chrome_calls : Nat := 0
  login_calls : Nat := 0
  extract_calls : Nat := 0
deriving DecidableEq, Repr

/-- The fields set by `__init__` (`main.py` lines 23-34). -/
def init_state : RunState :=
  { proxy := {} }

/-- Model of `setup_driver` (`main.py` lines 122-191): fetch a proxy URL
per the rotation strategy, then create the Chrome driver.  On creation
failure the proxy failure count is incremented when a proxy was used
under UNTIL_FAILURE (lines 160-166) and the exception propagates
(`Except.error`). -/
def setup_driver (env : Env) (pc : Option ProxyConfig) (rot : Rotation)
    (pool : Option String) (s : RunState) :
    Except String Unit × RunState × List Event :=
  let (proxy_url, ps, ev) := get_proxy_url env.proxy pc rot pool 5 s.proxy
  let s := { s with proxy := ps }
  if env.chrome_ok s.chrome_calls then
    (Except.ok (),
     { s with chrome_calls := s.chrome_calls + 1, has_driver := true, driver_live := true },
     ev ++ [Event.driver_create])
  else
    let s := { s with chrome_calls := s.chrome_calls + 1 }
    let s :=
      if truthy proxy_url ∧ rot = Rotation.UNTIL_FAILURE then
        { s with proxy := { s.proxy with proxy_failure_count := s.proxy.proxy_failure_count + 1 } }
      else s
    (Except.error "Failed to create Chrome driver", s, ev ++ [Event.driver_fail])

/-- Model of `login_to_linkedin` (`main.py` lines 193-211): tries
`actions.login` with the cookie or the email/password pair, catches any
exception and returns a bool. -/
def login_to_linkedin (env : Env) (s : RunState) : Bool × RunState × List Event :=
  let ok := env.login_ok s.login_calls
  (ok, { s with login_calls := s.login_calls + 1 }, [Event.login ok])

/-- Model of `add_rate_limit_delay` (`main.py` lines 213-224): the sleeps
are time-only; the state effect is `self.request_count += 1`. -/
def add_rate_limit_delay (s : RunState) : RunState :=
  { s with proxy := { s.proxy with request_count := s.proxy.request_count + 1 } }

/-- `self.driver.quit()` on the current driver. -/
def quit_driver (s : RunState) : RunState :=
  { s with driver_live := false }

/-- Common model of `scrape_person` / `scrape_company` / `scrape_job`
(`main.py` lines 240-391): rate-limit, then extract.  The whole body is
wrapped in `try/except Exception`, so the function never raises: on an
extraction error it returns the error dict
`{"error": str(e), "url": url, "type": ty}` as a normal value — hence
the `Except.ok` on both branches. -/
def scrape_entity (env : Env) (scraped_at ty url : String) (s : RunState) :
    Except String ResultRecord × RunState :=
  let s := add_rate_limit_delay s
  let r := env.extract s.extract_calls
  let s := { s with extract_calls := s.extract_calls + 1 }
  match r with
  | Except.ok payload =>
    (Except.ok { rtype := ty, url := some url, payload := some payload,
                 scraped_at := some scraped_at }, s)
  | Except.error e =>
    (Except.ok { rtype := ty, url := some url, error := some e }, s)

/-- The loop body's `result = self.retry_on_failure(self.scrape_X, url, ...)`
(`main.py` lines 516, 554, 580), with the instance constants
`max_retries = 3`, `retry_delay = 5`.  The `getD` default covers only the
`max_retries = 0` case, which cannot arise with the constant 3. -/
def run_task (env : Env) (scraped_at ty url : String) (s : RunState) :
    Except String ResultRecord × RunState :=
  let (r, s', _) := retry_on_failure 3 5 (scrape_entity env scraped_at ty url) s
  (r.getD (Except.error "retry loop did not run"), s')

/-- Model of `search_jobs` (`main.py` lines 393-437). -/
def search_jobs (env : Env) (scraped_at : String) (search_term : Option String) :
    List ResultRecord :=
  if env.search_ok then
    (if truthy search_term then
       env.search_listings.map fun j =>
         { rtype := "job_search_result", url := some j, payload := some j,
           scraped_at := some scraped_at }
     else []) ++
    env.recommended_jobs.map fun j =>
      { rtype := "recommended_job", url := some j, payload := some j,
        scraped_at := some scraped_at }
  else
    [{ rtype := "job_search", search_term := search_term,
       error := some "job search failed" }]

/-- Outcome of the PER_REQUEST driver-recreation prelude of a URL-loop
iteration (`main.py` lines 506-514 and the identical blocks at 545-552,
571-578): `proceed` falls through to the scrape, `skip` is the
re-login-failure `continue` (the caller increments `failed`), `caught` is
a `setup_driver` exception, caught by the per-task `except` branch. -/
inductive Pre
  | proceed (s : RunState) (evs : List Event)
  | skip (s : RunState) (evs : List Event)
  | caught (e : String) (s : RunState) (evs : List Event)

/-- The `self.driver = await self.setup_driver(...)` plus re-login part of
a recreation block, starting from the already-quit state `s` (the
`driver_quit` event for the preceding `self.driver.quit()` is emitted
here). -/
def recreate_and_login (env : Env) (pc : Option ProxyConfig) (rot : Rotation)
    (pool : Option String) (s : RunState) : Pre :=
  match setup_driver env pc rot pool s with
  | (Except.ok _, s, ev) =>
    let (ok, s, ev2) := login_to_linkedin env s
    if ok then Pre.proceed s (Event.driver_quit :: (ev ++ ev2))
    else Pre.skip s (Event.driver_quit :: (ev ++ ev2))
  | (Except.error e, s, ev) =>
    Pre.caught e s (Event.driver_quit :: ev)

/-- The `if self.proxy_rotation == "PER_REQUEST" and i > 0:` recreation
block at the top of each URL-loop iteration. -/
def per_request_recreate (env : Env) (pc : Option ProxyConfig) (rot : Rotation)
    (pool : Option String) (i : Nat) (s : RunState) : Pre :=
  if rot = Rotation.PER_REQUEST ∧ 0 < i then
    recreate_and_login env pc rot pool (quit_driver s)
  else
    Pre.proceed s []

/-- Result of one URL-loop iteration: post-state, post-progress, records
appended to `results` during the iteration, events emitted, whether the
iteration executed `break`, and an exception escaping the per-task
`try/except` (fatal for the run). -/
structure StepOut where
  s : RunState
  prog : Progress
  results : List ResultRecord
  events : List Event
  brk : Bool
  exc : Option String
deriving Repr

/-- The per-task `except` branch (`main.py` lines 521-536 for the person
loop; 559-562 and 585-588 are the same without the UNTIL_FAILURE rotation
block, which appears only in the person loop).  `evs` are the events the
iteration emitted before the exception. -/
def forced_rotate (env : Env) (pc : Option ProxyConfig) (rot : Rotation)
    (pool : Option String) (s : RunState) (prog : Progress) (r : ResultRecord)
    (evs : List Event) : StepOut :=
  match setup_driver env pc rot pool s with
  | (Except.ok _, s, ev) =>
    let (ok, s, ev2) := login_to_linkedin env s
    if ok then
      { s := s, prog := prog, results := [r],
        events := evs ++ (Event.driver_quit :: (ev ++ ev2)) ++ [Event.set_progress prog],
        brk := false, exc := none }
    else
      -- "Failed to re-login after proxy rotation" → break
      { s := s, prog := prog, results := [r],
        events := evs ++ (Event.driver_quit :: (ev ++ ev2)),
        brk := true, exc := none }
  | (Except.error e2, s, ev) =>
    -- raised inside the except handler → escapes to the top level
    { s := s, prog := prog, results := [r],
      events := evs ++ (Event.driver_quit :: ev),
      brk := false, exc := some e2 }

def task_except (env : Env) (pc : Option ProxyConfig) (rot : Rotation)
    (pool : Option String) (ty url : String) (e : String)
    (s : RunState) (prog : Progress) (evs : List Event) : StepOut :=
  let prog := { prog with failed := prog.failed + 1 }
  let r : ResultRecord := { rtype := ty, url := some url, error := some e }
  if ty = "person" ∧ rot = Rotation.UNTIL_FAILURE then
    let s := { s with proxy := { s.proxy with proxy_failure_count := s.proxy.proxy_failure_count + 1 } }
    if s.proxy.proxy_failure_count ≥ 5 then
      forced_rotate env pc rot pool
        (quit_driver { s with proxy := { s.proxy with current_proxy_url := none } })
        prog r evs
    else
      { s := s, prog := prog, results := [r],
        events := evs ++ [Event.set_progress prog], brk := false, exc := none }
  else
    { s := s, prog := prog, results := [r],
      events := evs ++ [Event.set_progress prog], brk := false, exc := none }

/-- One iteration of the person/company/job URL loop (`main.py` lines
503-539, 542-565, 568-591), for the task with index `i` and URL `url`. -/
def url_step (env : Env) (pc : Option ProxyConfig) (rot : Rotation)
    (pool : Option String) (scraped_at ty : String) (i : Nat) (url : String)
    (s : RunState) (prog : Progress) : StepOut :=
  let ev0 := [Event.log_task i]
  match per_request_recreate env pc rot pool i s with
  | Pre.skip s evs =>
    -- "Failed to re-login for URL ..." → failed += 1; continue
    { s := s, prog := { prog with failed := prog.failed + 1 }, results := [],
      events := ev0 ++ evs, brk := false, exc := none }
  | Pre.caught e s evs =>
    task_except env pc rot pool ty url e s prog (ev0 ++ evs)
  | Pre.proceed s evs =>
    match run_task env scraped_at ty url s with
    | (Except.ok r, s) =>
      let prog := { prog with completed := prog.completed + 1 }
      { s := s, prog := prog, results := [r],
        events := ev0 ++ evs ++ [Event.push r, Event.set_progress prog],
        brk := false, exc := none }
    | (Except.error e, s) =>
      task_except env pc rot pool ty url e s prog (ev0 ++ evs)

/-- The person/company/job URL loop over `urls[:max_results]`, returning
one `StepOut` per executed iteration (a `break` or an escaping exception
stops the loop after its iteration). -/
def url_loop (env : Env) (pc : Option ProxyConfig) (rot : Rotation)
    (pool : Option String) (scraped_at ty : String) :
    Nat → List String → RunState → Progress → List StepOut
  | _, [], _, _ => []
  | i, url :: rest, s, prog =>
    let st := url_step env pc rot pool scraped_at ty i url s prog
    if st.brk ∨ st.exc.isSome then [st]
    else st :: url_loop env pc rot pool scraped_at ty (i + 1) rest st.s st.prog

/-- State and progress after the executed loop iterations. -/
def loop_final (s : RunState) (prog : Progress) (steps : List StepOut) :
    RunState × Progress :=
  match steps.getLast? with
  | none => (s, prog)
  | some st => (st.s, st.prog)

/-- The exception escaping the loop, if any (only the last executed
iteration can carry one). -/
def loop_exc (steps : List StepOut) : Option String :=
  match steps.getLast? with
  | none => none
  | some st => st.exc

/-- The `job_search` result loop (`main.py` lines 595-601): push each of
the first `max_results` search records, count it as completed, and
persist progress on every 10th record. -/
def job_search_loop : Nat → List ResultRecord → Progress →
    List ResultRecord × Progress × List Event
  | _, [], prog => ([], prog, [])
  | i, r :: rest, prog =>
    let prog := { prog with completed := prog.completed + 1 }
    let evs := Event.push r ::
      (if (i + 1) % 10 = 0 then [Event.set_progress prog] else [])
    let (rs, prog', evs') := job_search_loop (i + 1) rest prog
    (r :: rs, prog', evs ++ evs')

/-- The `proxyConfiguration` input dict: `empty` stands for any dict with
neither a truthy `useApifyProxy` nor a truthy `proxyUrls` entry (all such
dicts make `setup_proxy_configuration` return `None`). -/
inductive ProxyConfiguration
  | empty
  | useApifyProxy (groups : List String) (country : String)
  | proxyUrls (urls : List String)
deriving DecidableEq, Repr

/-- Model of `setup_proxy_configuration` (`main.py` lines 36-64). -/
def setup_proxy_configuration : ProxyConfiguration → Option ProxyConfig
  | ProxyConfiguration.empty => none
  | ProxyConfiguration.useApifyProxy _ _ => some ProxyConfig.apify
  | ProxyConfiguration.proxyUrls urls =>
    if urls ≠ [] then some (ProxyConfig.custom urls) else none

/-- The actor input after the `actor_input.get(...)` extraction at the top
of `run` (`main.py` lines 445-460), defaults already applied.
`scrapeType` stays a string because the source dispatches on strings and
silently runs no loop for an unknown value.  `maxResults` is modelled as
a natural number (the input contract is a count; Python's negative-slice
behaviour for a negative value is out of scope). -/
structure ActorInput where
  scrapeType : String := "person"
  urls : List String := []
  email : Option String := none
  password : Option String := none
  cookie : Option String := none
  proxyConfiguration : ProxyConfiguration := ProxyConfiguration.useApifyProxy ["RESIDENTIAL"] "US"
  proxyRotation : Rotation := Rotation.RECOMMENDED
  sessionPoolName : Option String := none
  headless : Bool := true
  getContacts : Bool := false
  getEmployees : Bool := false
  jobSearchTerm : Option String := none
  maxResults : Nat := 100
deriving Repr

/-- The `finally` block of `run` (`main.py` lines 627-632): quit the
driver if `self.driver` is assigned (exceptions from `quit` are
swallowed). -/
def finalize (s : RunState) : RunState × List Event :=
  if s.has_driver then (quit_driver s, [Event.driver_quit]) else (s, [])

/-- What `run` produces: the returned `results` list, the event trace, the
final actor state, and (as a derived view used by the theorems) the
per-iteration outputs of the URL loop. -/
structure RunOutput where
  results : List ResultRecord
  events : List Event
  s : RunState
  steps : List StepOut

/-- Exit through the `finally` block. -/
def finish_run (results : List ResultRecord) (events : List Event)
    (s : RunState) (steps : List StepOut) : RunOutput :=
  let (s', ev) := finalize s
  { results := results, events := events ++ ev, s := s', steps := steps }

/-- Prefix an output's event trace with earlier events. -/
def prepend_events (evs : List Event) (o : RunOutput) : RunOutput :=
  { o with events := evs ++ o.events }

/-- The final `SESSION_<pool>_FINAL` persist (`main.py` lines 608-618). -/
def final_session_events (pool : Option String) : List Event :=
  if truthy pool then [Event.set_session ("SESSION_" ++ pool.getD "" ++ "_FINAL")] else []

/-- The person/company/job branch of `run` (`main.py` lines 502-591
followed by 603-620): run the URL loop, then — unless an exception
escaped an `except` handler — persist the final PROGRESS (status
`completed`) and the final session record. -/
def run_direct (env : Env) (pc : Option ProxyConfig) (rot : Rotation)
    (pool : Option String) (scraped_at ty : String) (urls : List String)
    (pre : List Event) (s : RunState) (prog0 : Progress) : RunOutput :=
  let steps := url_loop env pc rot pool scraped_at ty 0 urls s prog0
  let results := (steps.map StepOut.results).flatten
  let evL := (steps.map StepOut.events).flatten
  let sF := (loop_final s prog0 steps).1
  let progF := (loop_final s prog0 steps).2
  match loop_exc steps with
  | some e =>
    -- a raise inside an except handler: top-level handler, no final progress
    finish_run results (pre ++ evL ++ [Event.set_error e]) sF steps
  | none =>
    let progC := { progF with status := some "completed" }
    finish_run results (pre ++ evL ++ (Event.set_progress progC :: final_session_events pool))
      sF steps

/-- The `job_search` branch of `run` (`main.py` lines 593-601 followed by
603-620). -/
def run_job_search (env : Env) (pool : Option String) (scraped_at : String)
    (term : Option String) (max_results : Nat) (pre : List Event)
    (s : RunState) (prog0 : Progress) : RunOutput :=
  let jrs := search_jobs env scraped_at term
  let results := (job_search_loop 0 (jrs.take max_results) prog0).1
  let progF := (job_search_loop 0 (jrs.take max_results) prog0).2.1
  let evJ := (job_search_loop 0 (jrs.take max_results) prog0).2.2
  let progC := { progF with status := some "completed" }
  finish_run results (pre ++ evJ ++ (Event.set_progress progC :: final_session_events pool))
    s []

/-- The part of `run` after a successful login (`main.py` lines 482-620):
session-info and initial-progress persists, then the per-type dispatch;
an unknown scrape type runs no loop but still persists the final
progress. -/
def run_after_login (env : Env) (scraped_at : String) (inp : ActorInput)
    (pc : Option ProxyConfig) (rot : Rotation) (pool : Option String)
    (s : RunState) : RunOutput :=
  let evS := if truthy pool then [Event.set_session ("SESSION_" ++ pool.getD "")] else []
  let total := if inp.urls ≠ [] then min inp.urls.length inp.maxResults else inp.maxResults
  let prog0 : Progress :=
    { total := total, completed := 0, failed := 0, scrape_type := inp.scrapeType,
      proxy_rotation := rot, session_pool := pool }
  let pre := evS ++ [Event.set_progress prog0]
  if inp.scrapeType = "person" ∨ inp.scrapeType = "company" ∨ inp.scrapeType = "job" then
    run_direct env pc rot pool scraped_at inp.scrapeType (inp.urls.take inp.maxResults)
      pre s prog0
  else if inp.scrapeType = "job_search" then
    run_job_search env pool scraped_at inp.jobSearchTerm inp.maxResults pre s prog0
  else
    finish_run [] (pre ++ (Event.set_progress { prog0 with status := some "completed" }
      :: final_session_events pool)) s []

/-- Model of `LinkedInScraperActor.run` (`main.py` lines 439-634).
`scraped_at` is the timestamp captured by `__init__`
(`self.scraped_at = datetime.now().isoformat()`). -/
def run (env : Env) (scraped_at : String) (inp : ActorInput) : RunOutput :=
  let s0 := init_state
  -- input validation (lines 462-466)
  if ¬ truthy inp.cookie ∧ ¬ (truthy inp.email ∧ truthy inp.password) then
    finish_run [] [Event.set_error "Authentication credentials missing"] s0 []
  else
    let pc := setup_proxy_configuration inp.proxyConfiguration
    let rot := inp.proxyRotation
    let pool := inp.sessionPoolName
    -- initial driver setup (line 474); a raise here reaches the top-level handler
    match setup_driver env pc rot pool s0 with
    | (Except.error e, s, ev) =>
      finish_run [] (ev ++ [Event.set_error e]) s []
    | (Except.ok _, s, ev0) =>
      -- initial login (lines 477-479)
      let (ok, s, ev1) := login_to_linkedin env s
      if ¬ ok then
        finish_run [] (ev0 ++ ev1 ++ [Event.set_error "Login failed"]) s []
      else
        prepend_events (ev0 ++ ev1) (run_after_login env scraped_at inp pc rot pool s)

/-! Event-trace observers used by the theorems. -/

def is_quit : Event → Bool
  | Event.driver_quit => true
  | _ => false

def is_create : Event → Bool
  | Event.driver_create => true
  | _ => false

def is_login : Event → Bool
  | Event.login _ => true
  | _ => false

def is_log : Event → Bool
  | Event.log_task _ => true
  | _ => false

def is_progress_event : Event → Bool
  | Event.set_progress _ => true
  | _ => false

def count_quit (evs : List Event) : Nat := evs.countP is_quit

def count_create (evs : List Event) : Nat := evs.countP is_create

def count_login (evs : List Event) : Nat := evs.countP is_login

def count_log (evs : List Event) : Nat := evs.countP is_log

/-- An event that is neither a persisted progress record nor a per-task
"Processing ..." log line. -/
def neutral : Event → Bool
  | Event.set_progress _ => false
  | Event.log_task _ => false
  | _ => true

/-- Walk an event trace counting the per-task log lines (one is emitted
when a task starts being processed) and check, at every persisted
PROGRESS record, that `completed + failed` equals the number of tasks
processed so far and does not exceed `total`. -/
def progress_consistent : Nat → List Event → Bool
  | _, [] => true
  | n, Event.log_task _ :: evs => progress_consistent (n + 1) evs
  | n, Event.set_progress p :: evs =>
    decide (p.completed + p.failed = n) && decide (p.completed + p.failed ≤ p.total)
      && progress_consistent n evs
  | n, _ :: evs => progress_consistent n evs

/-- Does some persisted PROGRESS record have `completed + failed > total`? -/
def has_progress_over_total (evs : List Event) : Bool :=
  evs.any fun e =>
    match e with
    | Event.set_progress p => decide (p.total < p.completed + p.failed)
    | _ => false

/-- The `(completed, failed)` counters of the persisted PROGRESS records,
in order. -/
def progress_counters (evs : List Event) : List (Nat × Nat) :=
  evs.filterMap fun e =>
    match e with
    | Event.set_progress p => some (p.completed, p.failed)
    | _ => none

/-- The record `scrape_entity` returns when the extraction oracle is at
index `n`: the success dict, or the error dict built by its internal
`except` clause. -/
def scrape_record (env : Env) (scraped_at ty url : String) (n : Nat) : ResultRecord :=
  match env.extract n with
  | Except.ok payload =>
    { rtype := ty, url := some url, payload := some payload, scraped_at := some scraped_at }
  | Except.error e =>
    { rtype := ty, url := some url, error := some e }

/-! Concrete environments and inputs used by witnesses and counterexamples. -/

/-- A provider whose n-th endpoint is `"fresh" ++ n`; index draws are 0. -/
def penvFresh : ProxyEnv :=
  { new_url := fun n _ => "fresh" ++ toString n, choice := fun _ => 0 }

/-- Everything succeeds; every extraction yields payload `"payload"`. -/
def envOk : Env :=
  { proxy := penvFresh, chrome_ok := fun _ => true, login_ok := fun _ => true,
    extract := fun _ => Except.ok "payload",
    search_listings := ["a", "b"], recommended_jobs := [], search_ok := true }

/-- Setup and login succeed, but every per-entity extraction raises
`"timeout"` (so all three retry attempts would fail). -/
def envExtractFails : Env :=
  { envOk with extract := fun _ => Except.error "timeout" }

def inpOnePerson : ActorInput :=
  { cookie := some "c", urls := ["https://x/in/a"], scrapeType := "person",
    proxyConfiguration := ProxyConfiguration.empty }

def inpCompanyPR : ActorInput :=
  { cookie := some "c", urls := ["u1", "u2"], scrapeType := "company",
    proxyRotation := Rotation.PER_REQUEST, proxyConfiguration := ProxyConfiguration.empty }

def inpJobSearchUrls : ActorInput :=
  { cookie := some "c", urls := ["u"], scrapeType := "job_search",
    jobSearchTerm := some "x", maxResults := 2,
    proxyConfiguration := ProxyConfiguration.empty }

def inpNoCreds : ActorInput := {}

/-- A trace consisting only of provider `new_url` calls. -/
def proxy_only : List Event → Bool :=
  (List.all · fun e =>
    match e with
    | Event.new_url _ => true
    | _ => false)

/-- The driver bookkeeping is coherent: a live browser implies
`self.driver` is assigned. -/
def driver_inv (s : RunState) : Prop :=
  s.driver_live = true → s.has_driver = true

/-- The actor state carried by a recreation-prelude outcome. -/
def pre_state : Pre → RunState
  | Pre.proceed s _ => s
  | Pre.skip s _ => s
  | Pre.caught _ s _ => s

/-- The events emitted by a recreation-prelude outcome. -/
def pre_events : Pre → List Event
  | Pre.proceed _ evs => evs
  | Pre.skip _ evs => evs
  | Pre.caught _ _ evs => evs

/-! Supporting lemmas. -/

theorem proxy_only_get_proxy_url (env : ProxyEnv) (pc : Option ProxyConfig)
    (rot : Rotation) (pool : Option String) (m : Nat) (s : ProxyState) :
    proxy_only (get_proxy_url env pc rot pool m s).2.2 = true := by
  rcases pc with _ | (_ | urls)
  · rfl
  · cases rot <;> simp only [get_proxy_url] <;> split_ifs <;>
      simp [callNewUrl, proxy_only]
  · cases rot <;> simp only [get_proxy_url] <;> split_ifs <;>
      simp [randomChoice, proxy_only]

theorem proxy_only_props (evs : List Event) (h : proxy_only evs = true) :
    count_quit evs = 0 ∧ count_create evs = 0 ∧ count_login evs = 0 ∧
    count_log evs = 0 ∧ (∀ n, progress_consistent n evs = true) := by
  induction evs with
  | nil => exact ⟨rfl, rfl, rfl, rfl, fun n => rfl⟩
  | cons e evs ih =>
    rw [proxy_only, List.all_cons, Bool.and_eq_true] at h
    obtain ⟨he, hrest⟩ := h
    obtain ⟨ih1, ih2, ih3, ih4, ih5⟩ := ih hrest
    cases e <;> simp at he
    refine ⟨?_, ?_, ?_, ?_, fun n => ?_⟩
    · simpa [count_quit, List.countP_cons, is_quit] using ih1
    · simpa [count_create, List.countP_cons, is_create] using ih2
    · simpa [count_login, List.countP_cons, is_login] using ih3
    · simpa [count_log, List.countP_cons, is_log] using ih4
    · simpa [progress_consistent] using ih5 n

theorem run_task_eq (env : Env) (t ty url : String) (s : RunState) :
    run_task env t ty url s =
      (Except.ok (scrape_record env t ty url s.extract_calls),
       { s with proxy := { s.proxy with request_count := s.proxy.request_count + 1 },
                extract_calls := s.extract_calls + 1 }) := by
  unfold run_task retry_on_failure retry_go scrape_entity add_rate_limit_delay scrape_record
  cases h : env.extract s.extract_calls <;> simp [h]

theorem forced_rotate_results_prog (env : Env) (pc : Option ProxyConfig) (rot : Rotation)
    (pool : Option String) (s : RunState) (prog : Progress) (r : ResultRecord)
    (evs : List Event) :
    (forced_rotate env pc rot pool s prog r evs).results = [r] ∧
    (forced_rotate env pc rot pool s prog r evs).prog = prog := by
  unfold forced_rotate
  rcases hsd : setup_driver env pc rot pool s with ⟨rr, s2, ev⟩
  cases rr with
  | ok u =>
    simp only []
    split_ifs <;> exact ⟨rfl, rfl⟩
  | error e2 => exact ⟨rfl, rfl⟩

theorem task_except_results (env : Env) (pc : Option ProxyConfig) (rot : Rotation)
    (pool : Option String) (ty url e : String) (s : RunState) (prog : Progress)
    (evs : List Event) :
    (task_except env pc rot pool ty url e s prog evs).results =
      [{ rtype := ty, url := some url, error := some e }] := by
  unfold task_except
  dsimp only
  split_ifs
  · exact (forced_rotate_results_prog env pc rot pool _ _ _ _).1
  · rfl
  · rfl

theorem task_except_prog (env : Env) (pc : Option ProxyConfig) (rot : Rotation)
    (pool : Option String) (ty url e : String) (s : RunState) (prog : Progress)
    (evs : List Event) :
    (task_except env pc rot pool ty url e s prog evs).prog =
      { prog with failed := prog.failed + 1 } := by
  unfold task_except
  dsimp only
  split_ifs
  · exact (forced_rotate_results_prog env pc rot pool _ _ _ _).2
  · rfl
  · rfl

theorem quit_driver_inv (s : RunState) : driver_inv (quit_driver s) := by
  simp [driver_inv, quit_driver]

theorem setup_driver_driver_inv (env : Env) (pc : Option ProxyConfig) (rot : Rotation)
    (pool : Option String) (s : RunState) (h : driver_inv s) :
    driver_inv (setup_driver env pc rot pool s).2.1 := by
  rcases hgp : get_proxy_url env.proxy pc rot pool 5 s.proxy with ⟨pu, ps, ev⟩
  by_cases hok : env.chrome_ok s.chrome_calls = true
  · simp [setup_driver, hgp, hok, driver_inv]
  · simp only [Bool.not_eq_true] at hok
    simp only [setup_driver, hgp, hok]
    split_ifs <;> simpa [driver_inv] using h

theorem recreate_and_login_driver_inv (env : Env) (pc : Option ProxyConfig)
    (rot : Rotation) (pool : Option String) (sq : RunState) (hq : driver_inv sq) :
    driver_inv (pre_state (recreate_and_login env pc rot pool sq)) := by
  have hs := setup_driver_driver_inv env pc rot pool sq hq
  unfold recreate_and_login
  rcases hsd : setup_driver env pc rot pool sq with ⟨r, s2, ev⟩
  rw [hsd] at hs
  cases r with
  | ok u =>
    simp only [] at hs ⊢
    split_ifs <;> simpa [pre_state, login_to_linkedin, driver_inv] using hs
  | error e => simpa [pre_state] using hs

theorem per_request_recreate_driver_inv (env : Env) (pc : Option ProxyConfig)
    (rot : Rotation) (pool : Option String) (i : Nat) (s : RunState) (h : driver_inv s) :
    driver_inv (pre_state (per_request_recreate env pc rot pool i s)) := by
  unfold per_request_recreate
  split_ifs with hc
  · exact recreate_and_login_driver_inv env pc rot pool _ (quit_driver_inv s)
  · simpa [pre_state] using h

theorem forced_rotate_driver_inv (env : Env) (pc : Option ProxyConfig) (rot : Rotation)
    (pool : Option String) (sq : RunState) (prog : Progress) (r : ResultRecord)
    (evs : List Event) (hq : driver_inv sq) :
    driver_inv (forced_rotate env pc rot pool sq prog r evs).s := by
  have hs := setup_driver_driver_inv env pc rot pool sq hq
  unfold forced_rotate
  rcases hsd : setup_driver env pc rot pool sq with ⟨rr, s2, ev⟩
  rw [hsd] at hs
  cases rr with
  | ok u =>
    simp only [] at hs ⊢
    split_ifs <;> simpa [login_to_linkedin, driver_inv] using hs
  | error e2 => simpa using hs

theorem task_except_driver_inv (env : Env) (pc : Option ProxyConfig) (rot : Rotation)
    (pool : Option String) (ty url e : String) (s : RunState) (prog : Progress)
    (evs : List Event) (h : driver_inv s) :
    driver_inv (task_except env pc rot pool ty url e s prog evs).s := by
  unfold task_except
  dsimp only
  split_ifs with h1 h2
  · exact forced_rotate_driver_inv env pc rot pool _ _ _ _ (quit_driver_inv _)
  · simpa [driver_inv] using h
  · simpa [driver_inv] using h

theorem url_step_driver_inv (env : Env) (pc : Option ProxyConfig) (rot : Rotation)
    (pool : Option String) (t ty : String) (i : Nat) (url : String)
    (s : RunState) (prog : Progress) (h : driver_inv s) :
    driver_inv (url_step env pc rot pool t ty i url s prog).s := by
  have hpre := per_request_recreate_driver_inv env pc rot pool i s h
  unfold url_step
  rcases hp : per_request_recreate env pc rot pool i s with ⟨s1, evs⟩ | ⟨s1, evs⟩ | ⟨e, s1, evs⟩ <;>
    rw [hp] at hpre <;> simp only [pre_state] at hpre
  · dsimp only
    rw [run_task_eq]
    simpa [driver_inv] using hpre
  · simpa [driver_inv] using hpre
  · exact task_except_driver_inv env pc rot pool ty url e s1 prog _ hpre

theorem loop_final_cons (s : RunState) (prog : Progress) (st : StepOut)
    (steps : List StepOut) :
    loop_final s prog (st :: steps) = loop_final st.s st.prog steps := by
  cases steps with
  | nil => rfl
  | cons st2 rest =>
    simp only [loop_final, List.getLast?_cons_cons]
    cases hl : (st2 :: rest).getLast? with
    | none => simp at hl
    | some x => rfl

theorem url_loop_driver_inv (env : Env) (pc : Option ProxyConfig) (rot : Rotation)
    (pool : Option String) (t ty : String) :
    ∀ (urls : List String) (i : Nat) (s : RunState) (prog : Progress), driver_inv s →
      driver_inv (loop_final s prog (url_loop env pc rot pool t ty i urls s prog)).1 := by
  intro urls
  induction urls with
  | nil => intro i s prog h; simpa [url_loop, loop_final] using h
  | cons url rest ih =>
    intro i s prog h
    have hst := url_step_driver_inv env pc rot pool t ty i url s prog h
    simp only [url_loop]
    split_ifs with hstop
    · simpa [loop_final] using hst
    · rw [loop_final_cons]
      exact ih (i + 1) _ _ hst

theorem finalize_live (s : RunState) (h : driver_inv s) :
    (finalize s).1.driver_live = false := by
  unfold finalize
  split_ifs with hd
  · simp [quit_driver]
  · cases hl : s.driver_live
    · rfl
    · exact absurd (h hl) (by simpa using hd)

theorem finish_run_state (results : List ResultRecord) (events : List Event)
    (s : RunState) (steps : List StepOut) :
    (finish_run results events s steps).s = (finalize s).1 := rfl

theorem prepend_events_parts (evs : List Event) (o : RunOutput) :
    (prepend_events evs o).s = o.s ∧ (prepend_events evs o).results = o.results ∧
    (prepend_events evs o).steps = o.steps := ⟨rfl, rfl, rfl⟩

theorem run_direct_live (env : Env) (pc : Option ProxyConfig) (rot : Rotation)
    (pool : Option String) (t ty : String) (urls : List String) (pre : List Event)
    (s : RunState) (prog0 : Progress) (h : driver_inv s) :
    (run_direct env pc rot pool t ty urls pre s prog0).s.driver_live = false := by
  have hloop := url_loop_driver_inv env pc rot pool t ty urls 0 s prog0 h
  unfold run_direct
  dsimp only
  cases hexc : loop_exc (url_loop env pc rot pool t ty 0 urls s prog0) <;>
    rw [finish_run_state] <;> exact finalize_live _ hloop

theorem run_job_search_live (env : Env) (pool : Option String) (t : String)
    (term : Option String) (maxR : Nat) (pre : List Event) (s : RunState)
    (prog0 : Progress) (h : driver_inv s) :
    (run_job_search env pool t term maxR pre s prog0).s.driver_live = false := by
  unfold run_job_search
  rw [finish_run_state]
  exact finalize_live _ h

theorem run_after_login_live (env : Env) (t : String) (inp : ActorInput)
    (pc : Option ProxyConfig) (rot : Rotation) (pool : Option String)
    (s : RunState) (h : driver_inv s) :
    (run_after_login env t inp pc rot pool s).s.driver_live = false := by
  unfold run_after_login
  dsimp only
  split_ifs <;>
    first
    | exact run_direct_live env pc rot pool t inp.scrapeType _ _ s _ h
    | exact run_job_search_live env pool t inp.jobSearchTerm inp.maxResults _ s _ h
    | (rw [finish_run_state]; exact finalize_live _ h)

/-- C4 (counterexample): on the custom-endpoint path under UNTIL_FAILURE,
after 5 recorded failures the next `get_proxy_url` call does NOT yield a
different endpoint and does NOT reset the failure counter: with held
endpoint `"a"` and failure count 5 it returns `"a"` again and leaves the
counter at 5, although the provider oracle would have supplied a
different URL. -/
theorem until_failure_custom_holds_endpoint_counterexample :
    get_proxy_url penvFresh (some (ProxyConfig.custom ["a", "b"])) Rotation.UNTIL_FAILURE none 5
        { request_count := 0, current_proxy_url := some "a", proxy_failure_count := 5,
          new_url_calls := 0, choice_calls := 0 } =
      (some "a",
       { request_count := 0, current_proxy_url := some "a", proxy_failure_count := 5,
         new_url_calls := 0, choice_calls := 0 },
       []) := by
  decide

/-- C4 (amended): under UNTIL_FAILURE with a held endpoint `u`, on the
managed-provider path `get_proxy_url` returns `u` unchanged (no provider
call, no state change) while fewer than `maxFailures = 5` failures are
recorded; once the count reaches 5 the next call requests a fresh
endpoint from the provider, stores it, and resets the failure counter to
0 — and the returned endpoint differs from `u` whenever the provider
returns a different URL.  On the custom-endpoint path the held endpoint
is returned unchanged regardless of the failure count. -/
theorem until_failure_endpoint_rotation (env : ProxyEnv) (s : ProxyState)
    (u : String) (pool : Option String)
    (hu : u ≠ "") (hcur : s.current_proxy_url = some u) :
    (s.proxy_failure_count < 5 →
      get_proxy_url env (some ProxyConfig.apify) Rotation.UNTIL_FAILURE pool 5 s =
        (some u, s, [])) ∧
    (5 ≤ s.proxy_failure_count →
      (get_proxy_url env (some ProxyConfig.apify) Rotation.UNTIL_FAILURE pool 5 s).1 =
          some (env.new_url s.new_url_calls
            (if truthy pool then some (pool.getD "" ++ "_persistent") else none)) ∧
      (get_proxy_url env (some ProxyConfig.apify) Rotation.UNTIL_FAILURE pool 5 s).2.1.proxy_failure_count = 0 ∧
      (env.new_url s.new_url_calls
            (if truthy pool then some (pool.getD "" ++ "_persistent") else none) ≠ u →
        (get_proxy_url env (some ProxyConfig.apify) Rotation.UNTIL_FAILURE pool 5 s).1 ≠ some u)) ∧
    (∀ urls : List String, urls ≠ [] →
      get_proxy_url env (some (ProxyConfig.custom urls)) Rotation.UNTIL_FAILURE pool 5 s =
        (some u, s, [])) := by
  have htr : truthy s.current_proxy_url = true := by
    rw [hcur]; simp [truthy, hu]
  refine ⟨?_, ?_, ?_⟩
  · intro hlt
    have : ¬ (¬ truthy s.current_proxy_url = true ∨ s.proxy_failure_count ≥ 5) := by
      push_neg
      exact ⟨by simp [htr], hlt⟩
    simp only [get_proxy_url]
    rw [if_neg this, hcur]
  · intro hge
    have hcond : (¬ truthy s.current_proxy_url = true ∨ s.proxy_failure_count ≥ 5) := Or.inr hge
    constructor
    · simp only [get_proxy_url]
      rw [if_pos hcond]
      by_cases hp : truthy pool = true <;> simp [hp, callNewUrl]
    constructor
    · simp only [get_proxy_url]
      rw [if_pos hcond]
      by_cases hp : truthy pool = true <;> simp [hp, callNewUrl]
    · intro hne
      simp only [get_proxy_url]
      rw [if_pos hcond]
      by_cases hp : truthy pool = true
      · rw [if_pos hp] at hne
        simp [hp, callNewUrl, hne]
      · rw [if_neg hp] at hne
        simp [hp, callNewUrl, hne]
  · intro urls hurls
    have htru : truthy (some u) = true := by simp [truthy, hu]
    simp only [get_proxy_url]
    rw [if_pos hurls, hcur]
    simp [htru]

/-- C4 (witness): a concrete managed-provider state with 5 recorded
failures: the next call yields the fresh provider endpoint and resets
the counter to 0. -/
theorem until_failure_endpoint_rotation_witness :
    ("old" ≠ "" ∧
      ({ request_count := 0, current_proxy_url := some "old", proxy_failure_count := 5,
         new_url_calls := 0, choice_calls := 0 } : ProxyState).current_proxy_url = some "old") ∧
    (get_proxy_url penvFresh (some ProxyConfig.apify) Rotation.UNTIL_FAILURE none 5
        { request_count := 0, current_proxy_url := some "old", proxy_failure_count := 5,
          new_url_calls := 0, choice_calls := 0 }).1 = some "fresh0" := by
  refine ⟨⟨by decide, by decide⟩, ?_⟩
  have h := until_failure_endpoint_rotation penvFresh
    { request_count := 0, current_proxy_url := some "old", proxy_failure_count := 5,
      new_url_calls := 0, choice_calls := 0 }
    "old" none (by decide) (by decide)
  have h2 := (h.2.1 (by decide)).1
  simpa using h2

/-- C5: under RECOMMENDED: with a managed provider and pool name `p`, the
endpoint request carries session id `p ++ "_" ++ (request_count % 10)`
— so the session ids cycle with period 10; with no pool, a fresh
endpoint is requested from the provider on every call; with custom
endpoints, the endpoint at position `request_count % len(urls)` is
returned (round-robin). -/
theorem recommended_endpoint_selection (env : ProxyEnv) (s : ProxyState)
    (p : String) (urls : List String) (hp : p ≠ "") (hurls : urls ≠ []) :
    (get_proxy_url env (some ProxyConfig.apify) Rotation.RECOMMENDED (some p) 5 s =
      (some (env.new_url s.new_url_calls (some (p ++ "_" ++ toString (s.request_count % 10)))),
       { s with new_url_calls := s.new_url_calls + 1 },
       [Event.new_url (some (p ++ "_" ++ toString (s.request_count % 10)))])) ∧
    (p ++ "_" ++ toString ((s.request_count + 10) % 10)
      = p ++ "_" ++ toString (s.request_count % 10)) ∧
    (get_proxy_url env (some ProxyConfig.apify) Rotation.RECOMMENDED none 5 s =
      (some (env.new_url s.new_url_calls none),
       { s with new_url_calls := s.new_url_calls + 1 },
       [Event.new_url none])) ∧
    (get_proxy_url env (some (ProxyConfig.custom urls)) Rotation.RECOMMENDED none 5 s =
      (urls.get? (s.request_count % urls.length), s, []) ∧
     (urls.get? (s.request_count % urls.length)).isSome = true) := by
  have hptr : truthy (some p) = true := by simp [truthy, hp]
  refine ⟨?_, ?_, ?_, ?_, ?_⟩
  · simp [get_proxy_url, hptr, callNewUrl]
  · simp [Nat.add_mod_right]
  · simp [get_proxy_url, truthy, callNewUrl]
  · simp only [get_proxy_url]
    rw [if_pos hurls]
  · have hlen : 0 < urls.length := List.length_pos.mpr hurls
    have hlt : s.request_count % urls.length < urls.length := Nat.mod_lt _ hlen
    simp [List.getElem?_eq_getElem hlt]

/-- C5 (witness): pool `"p"` at request index 13 requests session id
`"p_3"`; the custom list at request index 4 with 3 endpoints returns the
middle one. -/
theorem recommended_endpoint_selection_witness :
    (("p" : String) ≠ "" ∧ (["a", "b", "c"] : List String) ≠ []) ∧
    (get_proxy_url penvFresh (some ProxyConfig.apify) Rotation.RECOMMENDED (some "p") 5
        { request_count := 13 }).2.2 = [Event.new_url (some "p_3")] ∧
    (get_proxy_url penvFresh (some (ProxyConfig.custom ["a", "b", "c"])) Rotation.RECOMMENDED none 5
        { request_count := 4 }).1 = some "b" := by
  refine ⟨⟨by decide, by decide⟩, ?_, ?_⟩
  · have h := (recommended_endpoint_selection penvFresh { request_count := 13 }
      "p" ["a", "b", "c"] (by decide) (by decide)).1
    rw [h]
    decide
  · have h := (recommended_endpoint_selection penvFresh { request_count := 4 }
      "p" ["a", "b", "c"] (by decide) (by decide)).2.2.2.1
    rw [h]
    decide

/-- C6: an operation that fails `k < 3` times and then succeeds is retried
to success with total sleep `5 * (2^0 + ... + 2^(k-1))` seconds; an
operation that fails on all 3 attempts propagates the last error with no
sleep after the final failure (total sleep `5*2^0 + 5*2^1`).  The
operation is modelled with an attempt counter as its state. -/
theorem retry_backoff_behavior {E α : Type} (op : Nat → Except E α) :
    (∀ (k : Nat) (a : α), k < 3 →
      (∀ j, j < k → ∃ e, op j = Except.error e) → op k = Except.ok a →
      retry_on_failure 3 5 (fun n => (op n, n + 1)) 0 =
        (some (Except.ok a), k + 1, 5 * ∑ j ∈ Finset.range k, 2 ^ j)) ∧
    (∀ e₀ e₁ e₂ : E, op 0 = Except.error e₀ → op 1 = Except.error e₁ →
      op 2 = Except.error e₂ →
      retry_on_failure 3 5 (fun n => (op n, n + 1)) 0 =
        (some (Except.error e₂), 3, 5 * 2 ^ 0 + 5 * 2 ^ 1)) := by
  constructor
  · intro k a hk hfail hsucc
    interval_cases k
    · simp [retry_on_failure, retry_go, hsucc]
    · obtain ⟨e0, h0⟩ := hfail 0 (by omega)
      simp [retry_on_failure, retry_go, h0, hsucc]
    · obtain ⟨e0, h0⟩ := hfail 0 (by omega)
      obtain ⟨e1, h1⟩ := hfail 1 (by omega)
      simp [retry_on_failure, retry_go, h0, h1, hsucc]
  · intro e₀ e₁ e₂ h0 h1 h2
    simp [retry_on_failure, retry_go, h0, h1, h2]

/-- C6 (witness): an operation failing twice then succeeding is retried to
success with 5 + 10 = 15 seconds of backoff; one failing three times
propagates its last error after 15 seconds of backoff. -/
theorem retry_backoff_behavior_witness :
    (retry_on_failure 3 5
        (fun n => ((if n < 2 then Except.error ("e" ++ toString n) else Except.ok 42), n + 1)) 0 =
      (some (Except.ok 42), 3, 15)) ∧
    (retry_on_failure 3 5
        (fun n => ((Except.error ("e" ++ toString n) : Except String Nat), n + 1)) 0 =
      (some (Except.error "e2"), 3, 15)) := by
  constructor
  · have h := (retry_backoff_behavior
      (fun n => if n < 2 then Except.error ("e" ++ toString n) else Except.ok 42)).1
      2 42 (by norm_num) (fun j hj => ⟨"e" ++ toString j, by interval_cases j <;> rfl⟩)
      (by rfl)
    rw [h]
    norm_num [Finset.sum_range_succ]
  · have h := (retry_backoff_behavior
      (fun n => (Except.error ("e" ++ toString n) : Except String Nat))).2
      "e0" "e1" "e2" (by rfl) (by rfl) (by rfl)
    rw [h]
    norm_num

/-- C2: with no (truthy) cookie and no complete email/password pair,
`run` returns an empty result sequence, persists exactly one ERROR
record and nothing else, and leaves the actor state at its initial
value — in particular no driver was created and no proxy endpoint was
requested (the credential check precedes any driver or proxy setup). -/
theorem missing_credentials_no_session (env : Env) (t : String) (inp : ActorInput)
    (hc : truthy inp.cookie = false)
    (he : truthy inp.email = false ∨ truthy inp.password = false) :
    (run env t inp).results = [] ∧
    (run env t inp).events = [Event.set_error "Authentication credentials missing"] ∧
    (run env t inp).s = init_state := by
  have hcond : ¬ truthy inp.cookie = true ∧
      ¬ (truthy inp.email = true ∧ truthy inp.password = true) := by
    refine ⟨by simp [hc], ?_⟩
    rcases he with h | h <;> simp [h]
  simp only [run]
  rw [if_pos hcond]
  simp [finish_run, finalize, init_state]

/-- C2 (witness): the all-defaults input has no credentials; the run
produces no results and only the ERROR record. -/
theorem missing_credentials_no_session_witness :
    (truthy inpNoCreds.cookie = false ∧ truthy inpNoCreds.email = false) ∧
    (run envOk "T" inpNoCreds).results = [] ∧
    (run envOk "T" inpNoCreds).events = [Event.set_error "Authentication credentials missing"] := by
  refine ⟨⟨by decide, by decide⟩, ?_, ?_⟩
  · exact (missing_credentials_no_session envOk "T" inpNoCreds (by decide)
      (Or.inl (by decide))).1
  · exact (missing_credentials_no_session envOk "T" inpNoCreds (by decide)
      (Or.inl (by decide))).2.1

/-- C1 (code deviation): a person run over one URL whose extraction raises
on every attempt.  `scrape_person` catches the exception internally and
returns the error dict as a normal value, so `retry_on_failure` sees no
failure (no retry happens), the loop's `except` branch never runs, and
`run` counts the task as COMPLETED: the persisted progress counters go
`(0,0) → (1,0) → (1,0)` — `completed = 1`, `failed = 0` — while the
appended record is failure-tagged.  The claim (and the spec) say the
`failed` counter, not `completed`, must be incremented for a task whose
extraction fails. -/
theorem extraction_failure_counted_as_completed :
    (run envExtractFails "T0" inpOnePerson).results =
      [{ rtype := "person", url := some "https://x/in/a", error := some "timeout" }] ∧
    progress_counters (run envExtractFails "T0" inpOnePerson).events =
      [(0, 0), (1, 0), (1, 0)] := by
  decide

/-- C8 (counterexample): a company run over two URLs under PER_REQUEST:
immediately after the second task's "Processing" log line the driver is
discarded, recreated and re-authenticated — so session recreation and
re-authentication DO occur between tasks in the company loop (two driver
creations and two logins in the whole run, not one). -/
theorem company_per_request_recreation_counterexample :
    ((run envOk "T" inpCompanyPR).events.drop 6).take 4 =
      [Event.log_task 1, Event.driver_quit, Event.driver_create, Event.login true] ∧
    count_create (run envOk "T" inpCompanyPR).events = 2 ∧
    count_login (run envOk "T" inpCompanyPR).events = 2 := by
  decide

/-- C3 (counterexample): a `job_search` run with a nonempty `urls` list:
`total` is computed from the urls list (`min(len(urls), max_results) = 1`)
but the search loop counts one `completed` per search record, so the
final persisted PROGRESS record has `completed + failed = 2 > total = 1`. -/
theorem progress_total_exceeded_counterexample :
    has_progress_over_total (run envOk "T" inpJobSearchUrls).events = true ∧
    progress_counters (run envOk "T" inpJobSearchUrls).events = [(0, 0), (2, 0)] ∧
    ((run envOk "T" inpJobSearchUrls).events.filterMap fun e =>
        match e with
        | Event.set_progress p => some p.total
        | _ => none) = [1, 1] := by
  decide

theorem finish_run_results (results : List ResultRecord) (events : List Event)
    (s : RunState) (steps : List StepOut) :
    (finish_run results events s steps).results = results := rfl

/-- C9: on every exit path of `run` — validation failure, driver-setup
failure, login failure, normal loop completion, loop `break`, an
exception escaping an `except` handler, or an unknown scrape type — the
final actor state has no live browser: `driver_live` is set only when
`webdriver.Chrome` succeeds and cleared only by `driver.quit()`, so a
false final value means every created driver was quit before `run`
returned (the `finally` block quits the last one). -/
theorem run_teardown_on_all_exit_paths (env : Env) (t : String) (inp : ActorInput) :
    (run env t inp).s.driver_live = false := by
  have hinit : driver_inv init_state := by simp [driver_inv, init_state]
  unfold run
  dsimp only
  split_ifs with hval
  · rw [finish_run_state]
    exact finalize_live _ hinit
  · rcases hsd : setup_driver env (setup_proxy_configuration inp.proxyConfiguration)
        inp.proxyRotation inp.sessionPoolName init_state with ⟨r, s1, ev0⟩
    have hsd0 := setup_driver_driver_inv env (setup_proxy_configuration inp.proxyConfiguration)
      inp.proxyRotation inp.sessionPoolName init_state hinit
    rw [hsd] at hsd0
    have hs1 : driver_inv s1 := hsd0
    cases r with
    | error e =>
      rw [finish_run_state]
      exact finalize_live _ hs1
    | ok u =>
      dsimp only [login_to_linkedin]
      have hlog : driver_inv { s1 with login_calls := s1.login_calls + 1 } := by
        simpa [driver_inv] using hs1
      split_ifs with hok
      · have := run_after_login_live env t inp (setup_proxy_configuration inp.proxyConfiguration)
          inp.proxyRotation inp.sessionPoolName { s1 with login_calls := s1.login_calls + 1 } hlog
        simpa [prepend_events] using this
      · rw [finish_run_state]
        exact finalize_live _ hlog

theorem scrape_record_scraped_at (env : Env) (t ty url : String) (n : Nat) :
    (scrape_record env t ty url n).scraped_at = none ∨
    (scrape_record env t ty url n).scraped_at = some t := by
  unfold scrape_record
  cases env.extract n <;> simp

theorem url_step_scraped_at (env : Env) (pc : Option ProxyConfig) (rot : Rotation)
    (pool : Option String) (t ty : String) (i : Nat) (url : String)
    (s : RunState) (prog : Progress) :
    ∀ r ∈ (url_step env pc rot pool t ty i url s prog).results,
      r.scraped_at = none ∨ r.scraped_at = some t := by
  intro r hr
  unfold url_step at hr
  rcases hp : per_request_recreate env pc rot pool i s with ⟨s1, evs⟩ | ⟨s1, evs⟩ | ⟨e, s1, evs⟩ <;>
    rw [hp] at hr <;> dsimp only at hr
  · rw [run_task_eq] at hr
    dsimp only at hr
    simp only [List.mem_singleton] at hr
    subst hr
    exact scrape_record_scraped_at env t ty url s1.extract_calls
  · simp at hr
  · rw [task_except_results] at hr
    simp only [List.mem_singleton] at hr
    subst hr
    left
    rfl

theorem url_loop_scraped_at (env : Env) (pc : Option ProxyConfig) (rot : Rotation)
    (pool : Option String) (t ty : String) :
    ∀ (urls : List String) (i : Nat) (s : RunState) (prog : Progress),
      ∀ r ∈ ((url_loop env pc rot pool t ty i urls s prog).map StepOut.results).flatten,
        r.scraped_at = none ∨ r.scraped_at = some t := by
  intro urls
  induction urls with
  | nil => intro i s prog r hr; simp [url_loop] at hr
  | cons url rest ih =>
    intro i s prog r hr
    simp only [url_loop] at hr
    split_ifs at hr with hc
    · simp only [List.map_cons, List.map_nil, List.flatten_cons, List.flatten_nil,
        List.append_nil] at hr
      exact url_step_scraped_at env pc rot pool t ty i url s prog r hr
    · simp only [List.map_cons, List.flatten_cons, List.mem_append] at hr
      rcases hr with h | h
      · exact url_step_scraped_at env pc rot pool t ty i url s prog r h
      · exact ih (i + 1) _ _ r h

theorem run_direct_scraped_at (env : Env) (pc : Option ProxyConfig) (rot : Rotation)
    (pool : Option String) (t ty : String) (urls : List String) (pre : List Event)
    (s : RunState) (prog0 : Progress) :
    ∀ r ∈ (run_direct env pc rot pool t ty urls pre s prog0).results,
      r.scraped_at = none ∨ r.scraped_at = some t := by
  intro r hr
  unfold run_direct at hr
  dsimp only at hr
  rcases hexc : loop_exc (url_loop env pc rot pool t ty 0 urls s prog0) with _ | e <;>
    rw [hexc] at hr <;> rw [finish_run_results] at hr <;>
    exact url_loop_scraped_at env pc rot pool t ty urls 0 s prog0 r hr

theorem job_search_loop_results (l : List ResultRecord) :
    ∀ (i : Nat) (prog : Progress), (job_search_loop i l prog).1 = l := by
  induction l with
  | nil => intro i prog; rfl
  | cons r rest ih => intro i prog; simp [job_search_loop, ih]

theorem search_jobs_scraped_at (env : Env) (t : String) (term : Option String) :
    ∀ r ∈ search_jobs env t term, r.scraped_at = none ∨ r.scraped_at = some t := by
  intro r hr
  unfold search_jobs at hr
  by_cases hok : env.search_ok = true
  · rw [if_pos hok] at hr
    rcases List.mem_append.mp hr with h | h
    · by_cases ht : truthy term = true
      · rw [if_pos ht] at h
        simp only [List.mem_map] at h
        obtain ⟨j, hj, rfl⟩ := h
        right
        rfl
      · rw [if_neg ht] at h
        simp at h
    · simp only [List.mem_map] at h
      obtain ⟨j, hj, rfl⟩ := h
      right
      rfl
  · rw [if_neg hok] at hr
    simp only [List.mem_singleton] at hr
    subst hr
    left
    rfl

theorem run_job_search_scraped_at (env : Env) (pool : Option String) (t : String)
    (term : Option String) (maxR : Nat) (pre : List Event) (s : RunState)
    (prog0 : Progress) :
    ∀ r ∈ (run_job_search env pool t term maxR pre s prog0).results,
      r.scraped_at = none ∨ r.scraped_at = some t := by
  intro r hr
  unfold run_job_search at hr
  dsimp only at hr
  rw [finish_run_results, job_search_loop_results] at hr
  exact search_jobs_scraped_at env t term r (List.take_subset maxR _ hr)

theorem run_after_login_scraped_at (env : Env) (t : String) (inp : ActorInput)
    (pc : Option ProxyConfig) (rot : Rotation) (pool : Option String) (s : RunState) :
    ∀ r ∈ (run_after_login env t inp pc rot pool s).results,
      r.scraped_at = none ∨ r.scraped_at = some t := by
  intro r hr
  unfold run_after_login at hr
  dsimp only at hr
  split_ifs at hr <;>
    first
    | exact run_direct_scraped_at env pc rot pool t inp.scrapeType _ _ s _ r hr
    | exact run_job_search_scraped_at env pool t inp.jobSearchTerm inp.maxResults _ s _ r hr
    | simp [finish_run_results] at hr

/-- C10: every record `run` emits that carries a `scraped_at` field at all
carries the single timestamp `t` captured at actor construction
(`self.scraped_at = datetime.now().isoformat()` in `__init__`), not a
per-task timestamp; records without the field are the error dicts. -/
theorem scraped_at_single_timestamp (env : Env) (t : String) (inp : ActorInput) :
    ∀ r ∈ (run env t inp).results, r.scraped_at = none ∨ r.scraped_at = some t := by
  intro r hr
  unfold run at hr
  dsimp only at hr
  split_ifs at hr with hval
  · rw [finish_run_results] at hr
    simp at hr
  · rcases hsd : setup_driver env (setup_proxy_configuration inp.proxyConfiguration)
        inp.proxyRotation inp.sessionPoolName init_state with ⟨rr, s1, ev0⟩
    rw [hsd] at hr
    cases rr with
    | error e =>
      rw [finish_run_results] at hr
      simp at hr
    | ok u =>
      dsimp only [login_to_linkedin] at hr
      split_ifs at hr with hok
      · have hrr : r ∈ (run_after_login env t inp (setup_proxy_configuration inp.proxyConfiguration)
            inp.proxyRotation inp.sessionPoolName
            { s1 with login_calls := s1.login_calls + 1 }).results := by
          simpa [prepend_events] using hr
        exact run_after_login_scraped_at env t inp _ _ _ _ r hrr
      · rw [finish_run_results] at hr
        simp at hr

/-- C10 (witness): a successful one-URL person run emits exactly one
record; it carries the construction-time timestamp. -/
theorem scraped_at_single_timestamp_witness :
    ((run envOk "T0" inpOnePerson).results.map ResultRecord.scraped_at = [some "T0"]) ∧
    ((run envOk "T0" inpOnePerson).results.getD 0 { rtype := "" } ∈
        (run envOk "T0" inpOnePerson).results ∧
      (((run envOk "T0" inpOnePerson).results.getD 0 { rtype := "" }).scraped_at = none ∨
       ((run envOk "T0" inpOnePerson).results.getD 0 { rtype := "" }).scraped_at = some "T0")) := by
  refine ⟨by decide, ⟨by decide, ?_⟩⟩
  exact scraped_at_single_timestamp envOk "T0" inpOnePerson _ (by decide)

theorem neutral_props (evs : List Event) (h : evs.all neutral = true) :
    count_log evs = 0 ∧ ∀ n, progress_consistent n evs = true := by
  induction evs with
  | nil => exact ⟨rfl, fun n => rfl⟩
  | cons e evs ih =>
    rw [List.all_cons, Bool.and_eq_true] at h
    obtain ⟨he, hrest⟩ := h
    obtain ⟨ih1, ih2⟩ := ih hrest
    cases e <;> simp [neutral] at he
    all_goals exact
      ⟨by simpa [count_log, List.countP_cons, is_log] using ih1,
       fun n => by simpa [progress_consistent] using ih2 n⟩

theorem proxy_only_neutral (evs : List Event) (h : proxy_only evs = true) :
    evs.all neutral = true := by
  induction evs with
  | nil => rfl
  | cons e evs ih =>
    rw [proxy_only, List.all_cons, Bool.and_eq_true] at h
    rw [List.all_cons, Bool.and_eq_true]
    obtain ⟨he, hrest⟩ := h
    refine ⟨?_, ih hrest⟩
    cases e <;> simp [neutral] at he ⊢

theorem setup_driver_events_neutral (env : Env) (pc : Option ProxyConfig)
    (rot : Rotation) (pool : Option String) (s : RunState) :
    ((setup_driver env pc rot pool s).2.2).all neutral = true := by
  rcases hgp : get_proxy_url env.proxy pc rot pool 5 s.proxy with ⟨pu, ps, ev⟩
  have hev : ev.all neutral = true := by
    have hpo := proxy_only_get_proxy_url env.proxy pc rot pool 5 s.proxy
    rw [hgp] at hpo
    exact proxy_only_neutral ev hpo
  by_cases hok : env.chrome_ok s.chrome_calls = true
  · simp [setup_driver, hgp, hok, List.all_append, hev, neutral]
  · simp only [Bool.not_eq_true] at hok
    simp only [setup_driver, hgp, hok]
    split_ifs <;> simp [List.all_append, hev, neutral]

theorem recreate_and_login_events_neutral (env : Env) (pc : Option ProxyConfig)
    (rot : Rotation) (pool : Option String) (sq : RunState) :
    (pre_events (recreate_and_login env pc rot pool sq)).all neutral = true := by
  have hsd2 := setup_driver_events_neutral env pc rot pool sq
  unfold recreate_and_login
  rcases hsd : setup_driver env pc rot pool sq with ⟨r, s2, ev⟩
  rw [hsd] at hsd2
  cases r with
  | ok u =>
    simp only []
    split_ifs <;> simp [pre_events, login_to_linkedin, List.all_append, hsd2, neutral]
  | error e => simpa [pre_events, List.all_append, neutral] using hsd2

theorem per_request_recreate_events_neutral (env : Env) (pc : Option ProxyConfig)
    (rot : Rotation) (pool : Option String) (i : Nat) (s : RunState) :
    (pre_events (per_request_recreate env pc rot pool i s)).all neutral = true := by
  unfold per_request_recreate
  split_ifs with hc
  · exact recreate_and_login_events_neutral env pc rot pool _
  · rfl

theorem progress_consistent_append (a : List Event) :
    ∀ (b : List Event) (n : Nat),
      progress_consistent n (a ++ b) =
        (progress_consistent n a && progress_consistent (n + count_log a) b) := by
  induction a with
  | nil => intro b n; simp [progress_consistent, count_log]
  | cons e a ih =>
    intro b n
    cases e
    case log_task j =>
      simp only [List.cons_append, List.append_eq, progress_consistent, ih]
      rw [show count_log (Event.log_task j :: a) = count_log a + 1 by
        simp [count_log, List.countP_cons, is_log]]
      rw [show n + (count_log a + 1) = n + 1 + count_log a by omega]
    all_goals
      simp only [List.cons_append, List.append_eq, progress_consistent, ih, Bool.and_assoc]
    all_goals
      simp [count_log, List.countP_cons, is_log]

theorem count_log_append (a b : List Event) :
    count_log (a ++ b) = count_log a + count_log b :=
  List.countP_append is_log a b

theorem forced_rotate_events_spec (env : Env) (pc : Option ProxyConfig)
    (rot : Rotation) (pool : Option String) (sq : RunState) (prog : Progress)
    (r : ResultRecord) (evs : List Event) :
    ∃ mid : List Event,
      (forced_rotate env pc rot pool sq prog r evs).events = evs ++ mid ∧
      count_log mid = 0 ∧
      ∀ n, prog.completed + prog.failed = n → prog.completed + prog.failed ≤ prog.total →
        progress_consistent n mid = true := by
  have hsd2 := setup_driver_events_neutral env pc rot pool sq
  unfold forced_rotate
  rcases hsd : setup_driver env pc rot pool sq with ⟨rr, s2, ev⟩
  rw [hsd] at hsd2
  dsimp only at hsd2
  cases rr with
  | ok u =>
    simp only []
    have hneu : (Event.driver_quit :: (ev ++ (login_to_linkedin env s2).2.2)).all neutral = true := by
      rw [List.all_cons, List.all_append, hsd2]
      simp [neutral, login_to_linkedin]
    obtain ⟨hcl, hpc⟩ := neutral_props _ hneu
    split_ifs with hok
    · refine ⟨(Event.driver_quit :: (ev ++ (login_to_linkedin env s2).2.2)) ++
        [Event.set_progress prog], by simp, ?_, ?_⟩
      · rw [count_log_append, hcl]
        rfl
      · intro n hn hle
        have hle2 : n ≤ prog.total := hn ▸ hle
        rw [progress_consistent_append, hcl, hpc n]
        simp [progress_consistent, hn, hle2]
    · exact ⟨_, rfl, hcl, fun n hn hle => hpc n⟩
  | error e2 =>
    have hneu : (Event.driver_quit :: ev).all neutral = true := by
      rw [List.all_cons, hsd2]
      simp [neutral]
    obtain ⟨hcl, hpc⟩ := neutral_props _ hneu
    exact ⟨_, rfl, hcl, fun n hn hle => hpc n⟩

theorem task_except_events_spec (env : Env) (pc : Option ProxyConfig) (rot : Rotation)
    (pool : Option String) (ty url e : String) (s : RunState) (prog : Progress)
    (evs : List Event) :
    ∃ mid : List Event,
      (task_except env pc rot pool ty url e s prog evs).events = evs ++ mid ∧
      count_log mid = 0 ∧
      ∀ n, prog.completed + (prog.failed + 1) = n →
        prog.completed + (prog.failed + 1) ≤ prog.total →
        progress_consistent n mid = true := by
  unfold task_except
  dsimp only
  split_ifs with h1 h2
  · obtain ⟨mid, hev, hcl, hpc⟩ := forced_rotate_events_spec env pc rot pool
      (quit_driver { s with proxy := { { s.proxy with
          proxy_failure_count := s.proxy.proxy_failure_count + 1 } with
          current_proxy_url := none } })
      { prog with failed := prog.failed + 1 }
      { rtype := ty, url := some url, error := some e } evs
    exact ⟨mid, hev, hcl, fun n hn hle => hpc n (by simpa using hn) (by simpa using hle)⟩
  · refine ⟨[Event.set_progress { prog with failed := prog.failed + 1 }], rfl, rfl, ?_⟩
    intro n hn hle
    have hle2 : n ≤ prog.total := hn ▸ hle
    simp [progress_consistent, hn, hle2]
  · refine ⟨[Event.set_progress { prog with failed := prog.failed + 1 }], rfl, rfl, ?_⟩
    intro n hn hle
    have hle2 : n ≤ prog.total := hn ▸ hle
    simp [progress_consistent, hn, hle2]

theorem url_step_progress (env : Env) (pc : Option ProxyConfig) (rot : Rotation)
    (pool : Option String) (t ty : String) (i : Nat) (url : String)
    (s : RunState) (prog : Progress) (T : Nat)
    (h1 : prog.completed + prog.failed = i) (h2 : i < T) (h3 : prog.total = T) :
    ((url_step env pc rot pool t ty i url s prog).prog.completed +
       (url_step env pc rot pool t ty i url s prog).prog.failed = i + 1) ∧
    ((url_step env pc rot pool t ty i url s prog).prog.total = T) ∧
    (count_log (url_step env pc rot pool t ty i url s prog).events = 1) ∧
    (progress_consistent i (url_step env pc rot pool t ty i url s prog).events = true) := by
  have hneu := per_request_recreate_events_neutral env pc rot pool i s
  unfold url_step
  rcases hp : per_request_recreate env pc rot pool i s with ⟨s1, evs⟩ | ⟨s1, evs⟩ | ⟨e, s1, evs⟩ <;>
    rw [hp] at hneu <;> simp only [pre_events] at hneu <;>
    obtain ⟨hcl, hpc⟩ := neutral_props evs hneu
  · -- Pre.proceed: normal scrape
    dsimp only
    rw [run_task_eq]
    dsimp only
    refine ⟨?_, ?_, ?_, ?_⟩
    · show prog.completed + 1 + prog.failed = i + 1
      omega
    · exact h3
    · have hcl2 : List.countP is_log evs = 0 := hcl
      simp [count_log, List.countP_append, List.countP_cons, is_log, hcl2]
    · simp only [List.cons_append, List.nil_append, List.append_eq, List.singleton_append,
        progress_consistent]
      rw [progress_consistent_append, hcl, hpc (i + 1)]
      simp [progress_consistent, decide_eq_true_eq]
      omega
  · -- Pre.skip: re-login failed, continue
    dsimp only
    refine ⟨?_, ?_, ?_, ?_⟩
    · show prog.completed + (prog.failed + 1) = i + 1
      omega
    · exact h3
    · have hcl2 : List.countP is_log evs = 0 := hcl
      simp [count_log, List.countP_append, List.countP_cons, is_log, hcl2]
    · simp only [List.cons_append, List.nil_append, List.append_eq, List.singleton_append,
        progress_consistent]
      exact hpc (i + 1)
  · -- Pre.caught: per-task except branch
    dsimp only
    obtain ⟨mid, hev, hclm, hpcm⟩ := task_except_events_spec env pc rot pool ty url e s1 prog
      ([Event.log_task i] ++ evs)
    have hcl2 : List.countP is_log evs = 0 := hcl
    refine ⟨?_, ?_, ?_, ?_⟩
    · rw [task_except_prog]
      show prog.completed + (prog.failed + 1) = i + 1
      omega
    · rw [task_except_prog]
      exact h3
    · rw [hev, count_log_append, hclm]
      simp [count_log, List.countP_append, List.countP_cons, is_log, hcl2]
    · rw [hev, progress_consistent_append]
      have hpre : progress_consistent i ([Event.log_task i] ++ evs) = true := by
        simp only [List.singleton_append, progress_consistent]
        exact hpc (i + 1)
      have hclpre : count_log ([Event.log_task i] ++ evs) = 1 := by
        simp [count_log, List.countP_append, List.countP_cons, is_log, hcl2]
      rw [hpre, hclpre]
      rw [hpcm (i + 1) (by omega) (by omega)]
      rfl

theorem url_loop_progress (env : Env) (pc : Option ProxyConfig) (rot : Rotation)
    (pool : Option String) (t ty : String) (T : Nat) :
    ∀ (urls : List String) (i : Nat) (s : RunState) (prog : Progress),
      prog.completed + prog.failed = i → prog.total = T → i + urls.length ≤ T →
      (progress_consistent i (((url_loop env pc rot pool t ty i urls s prog).map
          StepOut.events).flatten) = true) ∧
      (count_log (((url_loop env pc rot pool t ty i urls s prog).map
          StepOut.events).flatten) = (url_loop env pc rot pool t ty i urls s prog).length) ∧
      ((loop_final s prog (url_loop env pc rot pool t ty i urls s prog)).2.completed +
        (loop_final s prog (url_loop env pc rot pool t ty i urls s prog)).2.failed =
          i + (url_loop env pc rot pool t ty i urls s prog).length) ∧
      ((loop_final s prog (url_loop env pc rot pool t ty i urls s prog)).2.total = T) ∧
      ((url_loop env pc rot pool t ty i urls s prog).length ≤ urls.length) := by
  intro urls
  induction urls with
  | nil =>
    intro i s prog h1 h3 hlen
    refine ⟨rfl, rfl, ?_, ?_, ?_⟩ <;> simp [url_loop, loop_final, h1, h3]
  | cons url rest ih =>
    intro i s prog h1 h3 hlen
    have h2 : i < T := by
      simp only [List.length_cons] at hlen
      omega
    obtain ⟨hsum, htot, hclog, hpc⟩ := url_step_progress env pc rot pool t ty i url s prog T h1 h2 h3
    simp only [url_loop]
    split_ifs with hstop
    · simp only [List.map_cons, List.map_nil, List.flatten_cons, List.flatten_nil,
        List.append_nil, List.length_cons, List.length_nil]
      refine ⟨hpc, hclog, ?_, ?_, by simp⟩
      · simp [loop_final, hsum]
      · simp [loop_final, htot]
    · obtain ⟨ihpc, ihcl, ihsum, ihtot, ihlen⟩ := ih (i + 1)
        (url_step env pc rot pool t ty i url s prog).s
        (url_step env pc rot pool t ty i url s prog).prog hsum htot
        (by simp only [List.length_cons] at hlen; omega)
      rw [loop_final_cons]
      refine ⟨?_, ?_, ?_, ?_, ?_⟩
      · simp only [List.map_cons, List.flatten_cons]
        rw [progress_consistent_append, hpc, hclog, ihpc]
        rfl
      · simp only [List.map_cons, List.flatten_cons]
        rw [count_log_append, hclog, ihcl]
        simp only [List.length_cons]
        omega
      · rw [ihsum]
        simp only [List.length_cons]
        omega
      · exact ihtot
      · simp only [List.length_cons]
        omega

theorem finish_run_checker (res : List ResultRecord) (evs : List Event) (s : RunState)
    (steps : List StepOut) (n : Nat) (h : progress_consistent n evs = true) :
    progress_consistent n (finish_run res evs s steps).events = true := by
  unfold finish_run finalize
  split_ifs with hd <;> dsimp only <;>
    rw [progress_consistent_append, h] <;> simp [progress_consistent]

theorem run_direct_checker (env : Env) (pc : Option ProxyConfig) (rot : Rotation)
    (pool : Option String) (t ty : String) (urls : List String) (pre : List Event)
    (s : RunState) (prog0 : Progress)
    (hpre : progress_consistent 0 pre = true) (hclpre : count_log pre = 0)
    (hsum : prog0.completed = 0 ∧ prog0.failed = 0) (htot : urls.length ≤ prog0.total) :
    progress_consistent 0 (run_direct env pc rot pool t ty urls pre s prog0).events = true := by
  obtain ⟨hpc, hcl, hfsum, hftot, hlen⟩ := url_loop_progress env pc rot pool t ty prog0.total
    urls 0 s prog0 (by omega) rfl (by omega)
  have hX : ∀ X : List Event,
      progress_consistent ((url_loop env pc rot pool t ty 0 urls s prog0).length) X = true →
      progress_consistent 0
        (pre ++ (List.map StepOut.events (url_loop env pc rot pool t ty 0 urls s prog0)).flatten
          ++ X) = true := by
    intro X hXc
    rw [List.append_assoc, progress_consistent_append pre, hpre, hclpre]
    simp only [Nat.add_zero, Bool.true_and]
    rw [progress_consistent_append, hpc, hcl]
    simp only [Nat.zero_add, Bool.true_and]
    exact hXc
  unfold run_direct
  dsimp only
  rcases hexc : loop_exc (url_loop env pc rot pool t ty 0 urls s prog0) with _ | e
  · apply finish_run_checker
    apply hX
    have hfsum2 : (loop_final s prog0 (url_loop env pc rot pool t ty 0 urls s prog0)).2.completed +
        (loop_final s prog0 (url_loop env pc rot pool t ty 0 urls s prog0)).2.failed =
        (url_loop env pc rot pool t ty 0 urls s prog0).length := by omega
    rcases hpool : truthy pool with _ | _ <;>
      simp [final_session_events, hpool, progress_consistent, decide_eq_true_eq, hfsum2, hftot]
    all_goals omega
  · apply finish_run_checker
    apply hX
    rfl

theorem run_after_login_checker (env : Env) (t : String) (inp : ActorInput)
    (pc : Option ProxyConfig) (rot : Rotation) (pool : Option String) (s : RunState)
    (hty : inp.scrapeType = "person" ∨ inp.scrapeType = "company" ∨ inp.scrapeType = "job") :
    progress_consistent 0 (run_after_login env t inp pc rot pool s).events = true := by
  unfold run_after_login
  dsimp only
  rw [if_pos hty]
  apply run_direct_checker
  · rcases hpool : truthy pool with _ | _ <;>
      simp [progress_consistent, hpool]
  · rcases hpool : truthy pool with _ | _ <;>
      simp [count_log, List.countP_append, List.countP_cons, is_log, hpool]
  · exact ⟨rfl, rfl⟩
  · by_cases hu : inp.urls ≠ []
    · rw [if_pos hu, List.length_take, Nat.min_comm]
    · push_neg at hu
      simp [hu]

/-- C3 (amended): for the direct-URL scrape types (person, company, job),
every persisted PROGRESS record satisfies
`completed + failed = number of tasks processed so far` (counted by the
per-task "Processing" log lines preceding it) and
`completed + failed ≤ total`. -/
theorem progress_counters_invariant_direct_types (env : Env) (t : String) (inp : ActorInput)
    (hty : inp.scrapeType = "person" ∨ inp.scrapeType = "company" ∨ inp.scrapeType = "job") :
    progress_consistent 0 (run env t inp).events = true := by
  unfold run
  dsimp only
  split_ifs with hval
  · exact finish_run_checker _ _ _ _ _ rfl
  · rcases hsd : setup_driver env (setup_proxy_configuration inp.proxyConfiguration)
        inp.proxyRotation inp.sessionPoolName init_state with ⟨rr, s1, ev0⟩
    have hneu0 := setup_driver_events_neutral env (setup_proxy_configuration inp.proxyConfiguration)
      inp.proxyRotation inp.sessionPoolName init_state
    rw [hsd] at hneu0
    dsimp only at hneu0
    obtain ⟨hcl0, hpc0⟩ := neutral_props ev0 hneu0
    cases rr with
    | error e =>
      apply finish_run_checker
      rw [progress_consistent_append, hpc0 0, hcl0]
      rfl
    | ok u =>
      dsimp only [login_to_linkedin]
      split_ifs with hok
      · have hral := run_after_login_checker env t inp (setup_proxy_configuration inp.proxyConfiguration)
          inp.proxyRotation inp.sessionPoolName { s1 with login_calls := s1.login_calls + 1 } hty
        simp only [prepend_events]
        rw [progress_consistent_append]
        have hpcpre : progress_consistent 0 (ev0 ++ [Event.login (env.login_ok s1.login_calls)]) = true := by
          rw [progress_consistent_append, hpc0 0, hcl0]
          rfl
        have hclpre : count_log (ev0 ++ [Event.login (env.login_ok s1.login_calls)]) = 0 := by
          rw [count_log_append, hcl0]
          rfl
        rw [hpcpre, hclpre]
        simpa using hral
      · apply finish_run_checker
        rw [progress_consistent_append]
        have hpcpre : progress_consistent 0
            (ev0 ++ [Event.login (env.login_ok s1.login_calls)]) = true := by
          rw [progress_consistent_append, hpc0 0, hcl0]
          rfl
        have hclpre : count_log (ev0 ++ [Event.login (env.login_ok s1.login_calls)]) = 0 := by
          rw [count_log_append, hcl0]
          rfl
        rw [hpcpre, hclpre]
        rfl

/-- C3 (witness): a concrete successful company run satisfies the
progress-counter invariant. -/
theorem progress_counters_invariant_direct_types_witness :
    (inpCompanyPR.scrapeType = "person" ∨ inpCompanyPR.scrapeType = "company" ∨
      inpCompanyPR.scrapeType = "job") ∧
    progress_consistent 0 (run envOk "T" inpCompanyPR).events = true :=
  ⟨Or.inr (Or.inl (by decide)),
   progress_counters_invariant_direct_types envOk "T" inpCompanyPR (Or.inr (Or.inl (by decide)))⟩

theorem setup_driver_ok_eq (env : Env) (pc : Option ProxyConfig) (rot : Rotation)
    (pool : Option String) (s : RunState) (hch : env.chrome_ok s.chrome_calls = true) :
    setup_driver env pc rot pool s =
      (Except.ok (),
       { s with proxy := (get_proxy_url env.proxy pc rot pool 5 s.proxy).2.1,
                chrome_calls := s.chrome_calls + 1, has_driver := true, driver_live := true },
       (get_proxy_url env.proxy pc rot pool 5 s.proxy).2.2 ++ [Event.driver_create]) := by
  unfold setup_driver
  rcases hgp : get_proxy_url env.proxy pc rot pool 5 s.proxy with ⟨pu, ps, pev⟩
  dsimp only
  rw [if_pos hch]

/-- Full evaluation of a PER_REQUEST URL-loop iteration with `0 < i` when
the driver recreation succeeds: the session is discarded, recreated and
re-authenticated at the head of the iteration; on re-login success the
task is scraped, on re-login failure the task is only counted as failed
and the loop continues. -/
theorem url_step_per_request_eq (env : Env) (pc : Option ProxyConfig)
    (pool : Option String) (t ty url : String) (i : Nat) (s : RunState) (prog : Progress)
    (hi : 0 < i) (hch : env.chrome_ok s.chrome_calls = true) :
    (env.login_ok s.login_calls = true →
      url_step env pc Rotation.PER_REQUEST pool t ty i url s prog =
        { s := { s with
            proxy := { (get_proxy_url env.proxy pc Rotation.PER_REQUEST pool 5 s.proxy).2.1 with
              request_count := (get_proxy_url env.proxy pc Rotation.PER_REQUEST pool 5
                s.proxy).2.1.request_count + 1 },
            chrome_calls := s.chrome_calls + 1, login_calls := s.login_calls + 1,
            has_driver := true, driver_live := true, extract_calls := s.extract_calls + 1 },
          prog := { prog with completed := prog.completed + 1 },
          results := [scrape_record env t ty url s.extract_calls],
          events := Event.log_task i :: Event.driver_quit ::
            ((get_proxy_url env.proxy pc Rotation.PER_REQUEST pool 5 s.proxy).2.2 ++
              [Event.driver_create, Event.login true,
               Event.push (scrape_record env t ty url s.extract_calls),
               Event.set_progress { prog with completed := prog.completed + 1 }]),
          brk := false, exc := none }) ∧
    (env.login_ok s.login_calls = false →
      url_step env pc Rotation.PER_REQUEST pool t ty i url s prog =
        { s := { s with
            proxy := (get_proxy_url env.proxy pc Rotation.PER_REQUEST pool 5 s.proxy).2.1,
            chrome_calls := s.chrome_calls + 1, login_calls := s.login_calls + 1,
            has_driver := true, driver_live := true },
          prog := { prog with failed := prog.failed + 1 },
          results := [],
          events := Event.log_task i :: Event.driver_quit ::
            ((get_proxy_url env.proxy pc Rotation.PER_REQUEST pool 5 s.proxy).2.2 ++
              [Event.driver_create, Event.login false]),
          brk := false, exc := none }) := by
  have hrl : per_request_recreate env pc Rotation.PER_REQUEST pool i s =
      recreate_and_login env pc Rotation.PER_REQUEST pool (quit_driver s) := by
    unfold per_request_recreate
    rw [if_pos ⟨rfl, hi⟩]
  have hsd := setup_driver_ok_eq env pc Rotation.PER_REQUEST pool (quit_driver s) hch
  constructor <;> intro hb
  · unfold url_step
    rw [hrl]
    unfold recreate_and_login
    rw [hsd]
    dsimp only [login_to_linkedin, quit_driver]
    rw [if_pos hb]
    dsimp only
    rw [run_task_eq]
    dsimp only
    rw [hb]
    simp [List.append_assoc]
  · unfold url_step
    rw [hrl]
    unfold recreate_and_login
    rw [hsd]
    dsimp only [login_to_linkedin, quit_driver]
    rw [if_neg (by simp [hb])]
    dsimp only
    rw [hb]
    simp [List.append_assoc]

/-- C7: in the person loop under PER_REQUEST rotation: (a) before the
first task (index 0) the recreation block is a no-op — no `driver.quit`,
no driver creation, no (re-)login happens in that iteration; (b) for
every task index `i > 0` (with the Chrome launch succeeding), the
iteration performs exactly one `driver.quit`, one driver creation and
one re-login, and they occur immediately after the task's "Processing"
log line — before any scraping of that task; (c) if the re-login fails
there, only the current task is marked failed (`failed + 1`, `completed`
unchanged, no result appended) and the loop continues (no break, no
exception). -/
theorem person_per_request_rotation_per_task (env : Env) (pc : Option ProxyConfig)
    (pool : Option String) (t url : String) (i : Nat) (s : RunState) (prog : Progress)
    (hch : env.chrome_ok s.chrome_calls = true) :
    (per_request_recreate env pc Rotation.PER_REQUEST pool 0 s = Pre.proceed s [] ∧
     count_quit (url_step env pc Rotation.PER_REQUEST pool t "person" 0 url s prog).events = 0 ∧
     count_create (url_step env pc Rotation.PER_REQUEST pool t "person" 0 url s prog).events = 0 ∧
     count_login (url_step env pc Rotation.PER_REQUEST pool t "person" 0 url s prog).events = 0) ∧
    (0 < i →
     count_quit (url_step env pc Rotation.PER_REQUEST pool t "person" i url s prog).events = 1 ∧
     count_create (url_step env pc Rotation.PER_REQUEST pool t "person" i url s prog).events = 1 ∧
     count_login (url_step env pc Rotation.PER_REQUEST pool t "person" i url s prog).events = 1 ∧
     ∃ tail : List Event,
       (url_step env pc Rotation.PER_REQUEST pool t "person" i url s prog).events =
         Event.log_task i :: Event.driver_quit ::
           ((get_proxy_url env.proxy pc Rotation.PER_REQUEST pool 5 s.proxy).2.2 ++
             (Event.driver_create :: Event.login (env.login_ok s.login_calls) :: tail))) ∧
    (0 < i → env.login_ok s.login_calls = false →
     (url_step env pc Rotation.PER_REQUEST pool t "person" i url s prog).prog =
       { prog with failed := prog.failed + 1 } ∧
     (url_step env pc Rotation.PER_REQUEST pool t "person" i url s prog).results = [] ∧
     (url_step env pc Rotation.PER_REQUEST pool t "person" i url s prog).brk = false ∧
     (url_step env pc Rotation.PER_REQUEST pool t "person" i url s prog).exc = none) := by
  have hpo := proxy_only_get_proxy_url env.proxy pc Rotation.PER_REQUEST pool 5 s.proxy
  obtain ⟨hq0, hc0, hl0, hg0, hp0⟩ := proxy_only_props _ hpo
  have hq1 : List.countP is_quit
      (get_proxy_url env.proxy pc Rotation.PER_REQUEST pool 5 s.proxy).2.2 = 0 := hq0
  have hc1 : List.countP is_create
      (get_proxy_url env.proxy pc Rotation.PER_REQUEST pool 5 s.proxy).2.2 = 0 := hc0
  have hl1 : List.countP is_login
      (get_proxy_url env.proxy pc Rotation.PER_REQUEST pool 5 s.proxy).2.2 = 0 := hl0
  refine ⟨?_, ?_, ?_⟩
  · have h0 : per_request_recreate env pc Rotation.PER_REQUEST pool 0 s = Pre.proceed s [] := by
      unfold per_request_recreate
      rw [if_neg (by simp)]
    refine ⟨h0, ?_, ?_, ?_⟩ <;>
      (unfold url_step
       rw [h0]
       dsimp only
       rw [run_task_eq]
       dsimp only
       simp [count_quit, count_create, count_login, List.countP_cons, List.countP_append,
         is_quit, is_create, is_login])
  · intro hi
    rcases hb : env.login_ok s.login_calls with _ | _
    · rw [(url_step_per_request_eq env pc pool t "person" url i s prog hi hch).2 hb]
      refine ⟨?_, ?_, ?_, ⟨[], ?_⟩⟩ <;>
        simp [count_quit, count_create, count_login, List.countP_cons, List.countP_append,
          is_quit, is_create, is_login, hq1, hc1, hl1, hb]
    · rw [(url_step_per_request_eq env pc pool t "person" url i s prog hi hch).1 hb]
      refine ⟨?_, ?_, ?_,
        ⟨[Event.push (scrape_record env t "person" url s.extract_calls),
          Event.set_progress { prog with completed := prog.completed + 1 }], ?_⟩⟩ <;>
        simp [count_quit, count_create, count_login, List.countP_cons, List.countP_append,
          is_quit, is_create, is_login, hq1, hc1, hl1, hb]
  · intro hi hb
    rw [(url_step_per_request_eq env pc pool t "person" url i s prog hi hch).2 hb]
    exact ⟨rfl, rfl, rfl, rfl⟩

/-- C7 (witness): a concrete second-task iteration (index 1) performs
exactly one driver quit. -/
theorem person_per_request_rotation_per_task_witness :
    (envOk.chrome_ok init_state.chrome_calls = true) ∧
    count_quit (url_step envOk none Rotation.PER_REQUEST none "T" "person" 1 "u" init_state
      { total := 1, completed := 0, failed := 0, scrape_type := "person",
        proxy_rotation := Rotation.PER_REQUEST, session_pool := none }).events = 1 := by
  refine ⟨by decide, ?_⟩
  exact ((person_per_request_rotation_per_task envOk none none "T" "u" 1 init_state
    { total := 1, completed := 0, failed := 0, scrape_type := "person",
      proxy_rotation := Rotation.PER_REQUEST, session_pool := none } (by decide)).2.1
    (by decide)).1

/-- C8 (amended): the PER_REQUEST recreation block is present uniformly in
the company and job loops as well: for `scrapeType` company or job,
every iteration with index `i > 0` performs exactly one `driver.quit`,
one driver creation and one re-login, immediately after the task's
"Processing" log line. -/
theorem per_request_recreation_uniform_company_job (env : Env) (pc : Option ProxyConfig)
    (pool : Option String) (t ty url : String) (i : Nat) (s : RunState) (prog : Progress)
    (hty : ty = "company" ∨ ty = "job") (hi : 0 < i)
    (hch : env.chrome_ok s.chrome_calls = true) :
    count_quit (url_step env pc Rotation.PER_REQUEST pool t ty i url s prog).events = 1 ∧
    count_create (url_step env pc Rotation.PER_REQUEST pool t ty i url s prog).events = 1 ∧
    count_login (url_step env pc Rotation.PER_REQUEST pool t ty i url s prog).events = 1 ∧
    ∃ tail : List Event,
      (url_step env pc Rotation.PER_REQUEST pool t ty i url s prog).events =
        Event.log_task i :: Event.driver_quit ::
          ((get_proxy_url env.proxy pc Rotation.PER_REQUEST pool 5 s.proxy).2.2 ++
            (Event.driver_create :: Event.login (env.login_ok s.login_calls) :: tail)) := by
  have hpo := proxy_only_get_proxy_url env.proxy pc Rotation.PER_REQUEST pool 5 s.proxy
  obtain ⟨hq0, hc0, hl0, hg0, hp0⟩ := proxy_only_props _ hpo
  have hq1 : List.countP is_quit
      (get_proxy_url env.proxy pc Rotation.PER_REQUEST pool 5 s.proxy).2.2 = 0 := hq0
  have hc1 : List.countP is_create
      (get_proxy_url env.proxy pc Rotation.PER_REQUEST pool 5 s.proxy).2.2 = 0 := hc0
  have hl1 : List.countP is_login
      (get_proxy_url env.proxy pc Rotation.PER_REQUEST pool 5 s.proxy).2.2 = 0 := hl0
  rcases hb : env.login_ok s.login_calls with _ | _
  · rw [(url_step_per_request_eq env pc pool t ty url i s prog hi hch).2 hb]
    refine ⟨?_, ?_, ?_, ⟨[], ?_⟩⟩ <;>
      simp [count_quit, count_create, count_login, List.countP_cons, List.countP_append,
        is_quit, is_create, is_login, hq1, hc1, hl1, hb]
  · rw [(url_step_per_request_eq env pc pool t ty url i s prog hi hch).1 hb]
    refine ⟨?_, ?_, ?_,
      ⟨[Event.push (scrape_record env t ty url s.extract_calls),
        Event.set_progress { prog with completed := prog.completed + 1 }], ?_⟩⟩ <;>
      simp [count_quit, count_create, count_login, List.countP_cons, List.countP_append,
        is_quit, is_create, is_login, hq1, hc1, hl1, hb]

/-- C8 (amended, witness): a concrete company-task iteration at index 1
performs exactly one driver quit. -/
theorem per_request_recreation_uniform_company_job_witness :
    (("company" : String) = "company" ∨ ("company" : String) = "job") ∧
    count_quit (url_step envOk none Rotation.PER_REQUEST none "T" "company" 1 "u" init_state
      { total := 1, completed := 0, failed := 0, scrape_type := "company",
        proxy_rotation := Rotation.PER_REQUEST, session_pool := none }).events = 1 := by
  refine ⟨Or.inl rfl, ?_⟩
  exact (per_request_recreation_uniform_company_job envOk none none "T" "company" "u" 1
    init_state
    { total := 1, completed := 0, failed := 0, scrape_type := "company",
      proxy_rotation := Rotation.PER_REQUEST, session_pool := none }
    (Or.inl rfl) (by decide) (by decide)).1

end LinkedInApifyScraper
